import Mathlib

/-!
# The prelight pipeline of fury3d

A shallow embedding of `engine/Fury/PrelightPipeline.cpp` (the single-camera
pipeline with change tracking) and of `engine/src/PrelightPipeline.cpp` (the
older per-pass-camera pipeline), followed by theorems about the two.

Conventions of the embedding.

* A C++ object is a record; a `shared_ptr` to it is the record, a nullable
  pointer is an `Option`. Distinct objects are distinct records, so pointer
  comparison is record equality.
* Every call on the graphics API, on a `Shader`, on a `Pass` or on the texture
  pool is appended to `Pipeline.gpu`, in program order. Warnings written to the
  log go to `Pipeline.log`, calls of `GetShaderByName` to `Pipeline.lookups`.
* The `RenderUtil` singleton is the record `Pipeline.stats`.
* `float` arithmetic is exact arithmetic over `ℚ`.
* Code of the engine that these two files call but that lives elsewhere
  (shader registry, shadow-map generators, vector length, cone test, scene
  query) is a field of `Env`: the theorems hold for every such environment.
* A function that dereferences a pointer returns `none` when the pointer is
  null (the C++ behaviour is undefined there).
-/

namespace Engine

/-! ## Data model -/

/-- Position or direction; only the three spatial components are modelled. -/
structure Vector4 where
  x : ℚ
  y : ℚ
  z : ℚ
deriving DecidableEq

namespace Vector4

/-- `operator-` of `Vector4`. -/
def sub (a b : Vector4) : Vector4 := ⟨a.x - b.x, a.y - b.y, a.z - b.z⟩

/-- `operator*` of `Vector4` with a scalar. -/
def scale (a : Vector4) (k : ℚ) : Vector4 := ⟨a.x * k, a.y * k, a.z * k⟩

/-- Squared Euclidean length. -/
def squareLength (a : Vector4) : ℚ := a.x * a.x + a.y * a.y + a.z * a.z

end Vector4

/-- A 4x4 matrix, kept symbolic: a default-constructed matrix (`init`), a
matrix handed over by the scene (`raw`, tagged by a number) or the result of
`AppendScale`. -/
inductive Matrix4 where
  | init
  | raw (tag : Nat)
  | AppendScale (m : Matrix4) (s : ℚ)
deriving DecidableEq

/-- The uniform name `Matrix4::WORLD_MATRIX`. -/
def Matrix4.WORLD_MATRIX : String := "world_matrix"

inductive LightType where
  | DIRECTIONAL
  | POINT
  | SPOT
deriving DecidableEq

inductive DrawMode where
  | OPAQUE
  | TRANSPARENT
  | QUAD
  | LIGHT
deriving DecidableEq

inductive ShaderType where
  | STATIC_MESH
  | SKINNED_MESH
deriving DecidableEq

structure Texture where
  name : String
deriving DecidableEq

structure Shader where
  name : String
deriving DecidableEq

/-- A mesh: `indices` is `Indices.Data.size()`, `subMeshes` lists
`Indices.Data.size()` of each sub-mesh, so `GetSubMeshCount()` is its length. -/
structure Mesh where
  name : String
  skinned : Bool
  indices : Nat
  subMeshes : List Nat
deriving DecidableEq

namespace Mesh

def IsSkinnedMesh (m : Mesh) : Bool := m.skinned

def GetSubMeshCount (m : Mesh) : Nat := m.subMeshes.length

/-- Index count of sub-mesh `i`; render units carry an index below
`GetSubMeshCount`. -/
def GetSubMeshAt (m : Mesh) (i : Nat) : Nat := m.subMeshes.getD i 0

end Mesh

structure Material where
  name : String
  textureFlags : Nat
deriving DecidableEq

/-- The `Light` component. `mesh` is `GetMesh()`, the light-volume mesh the
light procedures read without a null check; it is present on every light. -/
structure Light where
  type : LightType
  radius : ℚ
  outterAngle : ℚ
  castShadows : Bool
  mesh : Mesh
deriving DecidableEq

/-- A scene node; `light` is `GetComponent<Light>()`. -/
structure SceneNode where
  name : String
  worldPosition : Vector4
  worldMatrix : Matrix4
  light : Option Light
deriving DecidableEq

/-- A view frustum; `corner0` is `GetCurrentCorners()[0]`. -/
structure Frustum where
  tag : Nat
  corner0 : Vector4
deriving DecidableEq

/-- The `Camera` component. -/
structure Camera where
  near : ℚ
  far : ℚ
  frustum : Frustum
deriving DecidableEq

/-- A scene node that carries a camera, as `m_CurrentCamera` points to;
`camera` is `GetComponent<Camera>()`, present on every camera node. -/
structure CameraNode where
  name : String
  worldPosition : Vector4
  camera : Camera
deriving DecidableEq

structure RenderUnit where
  node : SceneNode
  mesh : Mesh
  material : Material
  subMesh : Nat
deriving DecidableEq

structure RenderQuery where
  opaqueUnits : List RenderUnit
  transparentUnits : List RenderUnit
  lightNodes : List SceneNode
deriving DecidableEq

/-- A render pass. `textures` are `GetTextureAt(i, true)` for
`i < GetTextureCount(true)`; `cameraNode` is read by the per-pass-camera
pipeline only. -/
structure Pass where
  name : String
  renderIndex : Nat
  drawMode : DrawMode
  textures : List Texture
  firstShader : Option Shader
  cameraNode : Option CameraNode
deriving DecidableEq

inductive GLCap where
  | DEPTH_TEST
  | FRAMEBUFFER_SRGB
deriving DecidableEq

inductive GLFace where
  | FRONT
  | BACK
deriving DecidableEq

/-- Which shadow-map generator of the base pipeline is called. -/
inductive ShadowKind where
  | pointLight
  | dirLight
  | spotLight
  | cascaded
deriving DecidableEq

/-- One call on the graphics API, a shader, a pass or the texture pool.
`PassBind` carries the `clear` argument when the call site gives one.
`ShadowMap` is a whole call of a shadow-map generator; it carries the texture
the generator returned. -/
inductive Event where
  | glEnable (cap : GLCap)
  | glDisable (cap : GLCap)
  | glCullFace (face : GLFace)
  | glDrawElements (count : Nat)
  | PassBind (pass : String) (clear : Option Bool)
  | PassUnBind (pass : String)
  | ShaderBind (shader : Shader)
  | ShaderUnBind (shader : Shader)
  | BindCamera (shader : Shader) (camera : Option CameraNode)
  | BindMatrix (shader : Shader) (name : String) (m : Matrix4)
  | BindMatrices (shader : Shader) (name : String) (ms : List Matrix4)
  | BindFloat (shader : Shader) (name : String) (values : List ℚ)
  | BindTexture (shader : Shader) (name : String) (texture : Texture)
  | BindMaterial (shader : Shader) (material : Material)
  | BindMesh (shader : Shader) (mesh : Mesh)
  | BindSubMesh (shader : Shader) (mesh : Mesh) (index : Nat)
  | BindLight (shader : Shader) (node : SceneNode)
  | ShadowMap (kind : ShadowKind) (pass : String) (node : String) (result : Option Texture)
  | Collect (texture : Option Texture)
  | DrawDebug
deriving DecidableEq

/-- The counters of the `RenderUtil` singleton: each counts the calls of its
`Increase...` method, `triangleCount` sums the arguments of
`IncreaseTriangleCount`. -/
structure RenderUtil where
  drawCall : Nat
  triangleCount : Nat
  meshCount : Nat
  skinnedMeshCount : Nat
  lightCount : Nat
deriving DecidableEq

/-- The pipeline object together with the world it writes to. `m_PassMap` is
the pass collection in insertion order, `m_SortedPasses` holds the passes
themselves instead of their names. `debugSwitch` says whether one of the
bounds switches is on (`m_DebugFlags != 0` in the older file). -/
structure Pipeline where
  m_CurrentCamera : Option CameraNode
  m_CurrentShader : Option Shader
  m_CurrentMateral : Option Material
  m_CurrentMesh : Option Mesh
  CASCADED_SHADOW_MAP : Bool
  debugSwitch : Bool
  m_PassMap : List Pass
  m_SortedPasses : List Pass
  stats : RenderUtil
  gpu : List Event
  log : List String
  lookups : List String
deriving DecidableEq

/-- The engine around the pipeline: everything the two source files call and
do not define. `GetShaderByName` is the shader registry of the pipeline,
`GetShaderForPass` is `Material::GetShaderForPass`, `GetShader` is
`Pass::GetShader`, `GetUnitQuad` is `MeshUtil::GetUnitQuad`. The four
`Draw...ShadowMap` fields give what the shadow-map generators of the base
pipeline return: the shadow texture, null when none could be had, and the
matrix or matrices. `Length` is `Vector4::Length`, `coneDirection m` is
`m.Multiply(Vector4(0, -1, 0, 0)).Normalized()`, `sin` is `std::sin`,
`PointInCone` is `MathUtil::PointInCone`. `GetRenderQuery` and `QuerySort` are
`SceneManager::GetRenderQuery` and `RenderQuery::Sort`. -/
structure Env where
  GetShaderByName : String → Option Shader
  GetShaderForPass : Material → Nat → Option Shader
  GetShader : Pass → ShaderType → Nat → Option Shader
  GetUnitQuad : Mesh
  DrawPointLightShadowMap : Pass → SceneNode → Option Texture × Matrix4
  DrawDirLightShadowMap : Pass → SceneNode → Option Texture × Matrix4
  DrawSpotLightShadowMap : Pass → SceneNode → Option Texture × Matrix4
  DrawCascadedShadowMap : Pass → SceneNode → Option Texture × List Matrix4
  Length : Vector4 → ℚ
  coneDirection : Matrix4 → Vector4
  sin : ℚ → ℚ
  PointInCone : Vector4 → Vector4 → ℚ → ℚ → Vector4 → Bool
  GetRenderQuery : Frustum → RenderQuery
  QuerySort : Vector4 → RenderQuery → RenderQuery

/-! ## Helpers of the embedding -/

namespace Pipeline

/-- Append one call to the command stream. -/
def emit (p : Pipeline) (e : Event) : Pipeline := { p with gpu := p.gpu ++ [e] }

/-- Append a list of calls to the command stream. -/
def emits (p : Pipeline) (es : List Event) : Pipeline := { p with gpu := p.gpu ++ es }

/-- The message of a `FURYW << ...` statement. -/
def warn (p : Pipeline) (msg : String) : Pipeline := { p with log := p.log ++ [msg] }

/-- Record a call of `GetShaderByName`. -/
def lookup (p : Pipeline) (name : String) : Pipeline := { p with lookups := p.lookups ++ [name] }

/-- Modelled from the spec: `RenderUtil` is not among the sources. The spec
has its `Increase...` methods as fire-and-forget counters: each call advances
its counter by one, `IncreaseTriangleCount` by its argument. -/
def IncreaseDrawCall (p : Pipeline) : Pipeline :=
  { p with stats := { p.stats with drawCall := p.stats.drawCall + 1 } }

def IncreaseTriangleCount (p : Pipeline) (count : Nat) : Pipeline :=
  { p with stats := { p.stats with triangleCount := p.stats.triangleCount + count } }

def IncreaseMeshCount (p : Pipeline) : Pipeline :=
  { p with stats := { p.stats with meshCount := p.stats.meshCount + 1 } }

def IncreaseSkinnedMeshCount (p : Pipeline) : Pipeline :=
  { p with stats := { p.stats with skinnedMeshCount := p.stats.skinnedMeshCount + 1 } }

def IncreaseLightCount (p : Pipeline) : Pipeline :=
  { p with stats := { p.stats with lightCount := p.stats.lightCount + 1 } }

/-- The loop `for i < pass->GetTextureCount(true)` that binds every texture of
the pass under its own name. -/
def bindPassTextures (p : Pipeline) (shader : Shader) (pass : Pass) : Pipeline :=
  pass.textures.foldl (fun q ptr => q.emit (Event.BindTexture shader ptr.name ptr)) p

end Pipeline

/-- Modelled from the spec: `Pipeline::SortPassByIndex` is defined in
`Pipeline.cpp`, which is not among the sources. The spec has it stable-sort
the pass collection by render index ascending, ties in insertion order. -/
def Pipeline.SortPassByIndex (p : Pipeline) : Pipeline :=
  { p with m_SortedPasses :=
      p.m_PassMap.insertionSort (fun a b => a.renderIndex ≤ b.renderIndex) }

/-- A bounding sphere, as built by `SphereBounds(center, radius)`. -/
structure SphereBounds where
  center : Vector4
  radius : ℚ
deriving DecidableEq

/-- Modelled from the spec: `SphereBounds::IsInsideFast` is declared in
`SphereBounds.h`, which is not among the sources. The spec calls it the sphere
test of the camera position against the light volume: a point is inside when
it lies within the radius of the centre. The test compares squares, so no
square root is taken. -/
def SphereBounds.IsInsideFast (s : SphereBounds) (point : Vector4) : Bool :=
  decide ((point.sub s.center).squareLength ≤ s.radius * s.radius)

/-! ## `engine/Fury/PrelightPipeline.cpp` -/

namespace Fury.PrelightPipeline

/-- The shader `DrawUnit` resolves for a unit: the material's shader for the
pass, else the shader of the pass for the mesh kind and texture flags. -/
def unitShader (env : Env) (pass : Pass) (unit : RenderUnit) : Option Shader :=
  match env.GetShaderForPass unit.material pass.renderIndex with
  | some shader => some shader
  | none =>
    env.GetShader pass
      (if unit.mesh.IsSkinnedMesh then ShaderType.SKINNED_MESH else ShaderType.STATIC_MESH)
      unit.material.textureFlags

/-- `PrelightPipeline::DrawUnit`, lines 168-241. -/
def DrawUnit (env : Env) (pass : Pass) (unit : RenderUnit) (p : Pipeline) : Pipeline :=
  let node := unit.node
  let mesh := unit.mesh
  let material := unit.material
  match unitShader env pass unit with
  | none => p.warn ("Failed to draw " ++ node.name ++ ", shader not found!")
  | some shader =>
    let materialChanged := decide (some material ≠ p.m_CurrentMateral)
    let p := { p with m_CurrentMateral := some material }
    let meshChanged := decide (some mesh ≠ p.m_CurrentMesh)
    let p := { p with m_CurrentMesh := some mesh }
    let shaderChanged := materialChanged || decide (some shader ≠ p.m_CurrentShader)
    let p := { p with m_CurrentShader := some shader }
    let materialChanged := shaderChanged || materialChanged
    let meshChanged := shaderChanged || meshChanged
    let p :=
      if shaderChanged then
        let p := p.emit (Event.ShaderBind shader)
        let p := p.emit (Event.BindCamera shader p.m_CurrentCamera)
        p.bindPassTextures shader pass
      else p
    let p := if materialChanged then p.emit (Event.BindMaterial shader material) else p
    let p := p.emit (Event.BindMatrix shader Matrix4.WORLD_MATRIX node.worldMatrix)
    let p := if meshChanged then p.emit (Event.BindMesh shader mesh) else p
    let p :=
      if mesh.GetSubMeshCount > 0 then
        let subMesh := mesh.GetSubMeshAt unit.subMesh
        let p := p.emit (Event.BindSubMesh shader mesh unit.subMesh)
        let p := p.emit (Event.glDrawElements subMesh)
        p.IncreaseTriangleCount subMesh
      else
        let p := p.emit (Event.glDrawElements mesh.indices)
        p.IncreaseTriangleCount mesh.indices
    let p := if mesh.IsSkinnedMesh then p.IncreaseSkinnedMeshCount else p.IncreaseMeshCount
    p.IncreaseDrawCall

/-- The name `DrawPointLight` passes to `GetShaderByName`, line 255. -/
def pointLightShaderName (castShadows : Bool) : String :=
  if castShadows then "pointlight_shadow_shader" else "pointlight_shader"

/-- The name `DrawDirLight` passes to `GetShaderByName`, lines 334-335. -/
def dirLightShaderName (castShadows useCascaded : Bool) : String :=
  if castShadows then
    (if useCascaded then "dirlight_csm_shader" else "dirlight_shadow_shader")
  else "dirlight_shader"

/-- The name `DrawSpotLight` passes to `GetShaderByName`, line 423. -/
def spotLightShaderName (castShadows : Bool) : String :=
  if castShadows then "spotlight_shadow_shader" else "spotlight_shader"

/-- `PrelightPipeline::DrawPointLight`, lines 243-319. -/
def DrawPointLight (env : Env) (pass : Pass) (node : SceneNode) (p : Pipeline) :
    Option Pipeline :=
  match node.light, p.m_CurrentCamera with
  | some light, some cam =>
    let camPtr := cam.camera
    let camPos := cam.worldPosition
    let mesh := light.mesh
    let worldMatrix := node.worldMatrix
    let castShadows := light.castShadows
    let p := p.lookup (pointLightShaderName castShadows)
    match env.GetShaderByName (pointLightShaderName castShadows) with
    | none => some (p.warn ("Shader for light " ++ node.name ++ " not found!"))
    | some shader =>
      let shadowData : Option Texture × Matrix4 :=
        if castShadows then env.DrawPointLightShadowMap pass node else (none, Matrix4.init)
      let p :=
        if castShadows then
          p.emit (Event.ShadowMap ShadowKind.pointLight pass.name node.name shadowData.1)
        else p
      let p := p.emit (Event.PassBind pass.name (some false))
      let camNear := env.Length (camPtr.frustum.corner0.sub camPos)
      let p :=
        if (SphereBounds.mk node.worldPosition (light.radius + camNear)).IsInsideFast camPos then
          (p.emit (Event.glDisable GLCap.DEPTH_TEST)).emit (Event.glCullFace GLFace.FRONT)
        else
          (p.emit (Event.glEnable GLCap.DEPTH_TEST)).emit (Event.glCullFace GLFace.BACK)
      let worldMatrix := worldMatrix.AppendScale light.radius
      let p := p.emit (Event.ShaderBind shader)
      let p := p.emit (Event.BindCamera shader p.m_CurrentCamera)
      let p := p.emit (Event.BindMatrix shader Matrix4.WORLD_MATRIX worldMatrix)
      let p :=
        match castShadows, shadowData.1 with
        | true, some texture =>
          (p.emit (Event.BindTexture shader "shadow_buffer" texture)).emit
            (Event.BindMatrix shader "shadow_matrix" shadowData.2)
        | _, _ => p
      let p := p.emit (Event.BindLight shader node)
      let p := p.emit (Event.BindMesh shader mesh)
      let p := p.bindPassTextures shader pass
      let p := p.emit (Event.glDrawElements mesh.indices)
      let p := p.emit (Event.ShaderUnBind shader)
      let p := p.IncreaseDrawCall
      let p := p.IncreaseLightCount
      let p := p.emit (Event.PassUnBind pass.name)
      some (if castShadows then p.emit (Event.Collect shadowData.1) else p)
  | _, _ => none

/-- `PrelightPipeline::DrawDirLight`, lines 321-409. -/
def DrawDirLight (env : Env) (pass : Pass) (node : SceneNode) (p : Pipeline) :
    Option Pipeline :=
  match node.light, p.m_CurrentCamera with
  | some light, some cam =>
    let camPtr := cam.camera
    let mesh := light.mesh
    let worldMatrix := node.worldMatrix
    let castShadows := light.castShadows
    let useCascaded := p.CASCADED_SHADOW_MAP
    let p := p.lookup (dirLightShaderName castShadows useCascaded)
    match env.GetShaderByName (dirLightShaderName castShadows useCascaded) with
    | none => some (p.warn ("Shader for light " ++ node.name ++ " not found!"))
    | some shader =>
      let cascadedShadowData : Option Texture × List Matrix4 :=
        if castShadows && useCascaded then env.DrawCascadedShadowMap pass node else (none, [])
      let shadowData : Option Texture × Matrix4 :=
        if castShadows && !useCascaded then env.DrawDirLightShadowMap pass node
        else (none, Matrix4.init)
      let p :=
        if castShadows then
          if useCascaded then
            p.emit (Event.ShadowMap ShadowKind.cascaded pass.name node.name cascadedShadowData.1)
          else
            p.emit (Event.ShadowMap ShadowKind.dirLight pass.name node.name shadowData.1)
        else p
      let p := p.emit (Event.PassBind pass.name (some false))
      let p := p.emit (Event.glEnable GLCap.DEPTH_TEST)
      let p := p.emit (Event.glCullFace GLFace.BACK)
      let p := p.emit (Event.ShaderBind shader)
      let p := p.emit (Event.BindCamera shader p.m_CurrentCamera)
      let p := p.emit (Event.BindMatrix shader Matrix4.WORLD_MATRIX worldMatrix)
      let p :=
        if castShadows then
          match useCascaded, cascadedShadowData.1, shadowData.1 with
          | true, some texture, _ =>
            let p := p.emit (Event.BindTexture shader "shadow_buffer" texture)
            let p := p.emit (Event.BindMatrices shader "shadow_matrix" cascadedShadowData.2)
            let base := camPtr.far - camPtr.near
            let average := base / 4
            p.emit (Event.BindFloat shader "shadow_far"
              [average, average * 2, average * 3, average * 4])
          | _, _, some texture =>
            (p.emit (Event.BindTexture shader "shadow_buffer" texture)).emit
              (Event.BindMatrix shader "shadow_matrix" shadowData.2)
          | _, _, none => p
        else p
      let p := p.emit (Event.BindLight shader node)
      let p := p.emit (Event.BindMesh shader mesh)
      let p := p.bindPassTextures shader pass
      let p := p.emit (Event.glDrawElements mesh.indices)
      let p := p.emit (Event.ShaderUnBind shader)
      let p := p.IncreaseDrawCall
      let p := p.IncreaseLightCount
      let p := p.emit (Event.PassUnBind pass.name)
      some (if castShadows then
          (if useCascaded then p.emit (Event.Collect cascadedShadowData.1)
           else p.emit (Event.Collect shadowData.1))
        else p)
  | _, _ => none

/-- `PrelightPipeline::DrawSpotLight`, lines 411-495. -/
def DrawSpotLight (env : Env) (pass : Pass) (node : SceneNode) (p : Pipeline) :
    Option Pipeline :=
  match node.light, p.m_CurrentCamera with
  | some light, some cam =>
    let camPtr := cam.camera
    let camPos := cam.worldPosition
    let mesh := light.mesh
    let worldMatrix := node.worldMatrix
    let castShadows := light.castShadows
    let p := p.lookup (spotLightShaderName castShadows)
    match env.GetShaderByName (spotLightShaderName castShadows) with
    | none => some (p.warn ("Shader for light " ++ node.name ++ " not found!"))
    | some shader =>
      let shadowData : Option Texture × Matrix4 :=
        if castShadows then env.DrawSpotLightShadowMap pass node else (none, Matrix4.init)
      let p :=
        if castShadows then
          p.emit (Event.ShadowMap ShadowKind.spotLight pass.name node.name shadowData.1)
        else p
      let p := p.emit (Event.PassBind pass.name (some false))
      let coneCenter := node.worldPosition
      let coneDir := env.coneDirection worldMatrix
      let camNear := env.Length (camPtr.frustum.corner0.sub camPos)
      let theta := light.outterAngle * (1 / 2)
      let height := light.radius
      let extra := camNear / env.sin theta
      let coneCenter := coneCenter.sub (coneDir.scale extra)
      let height := height + (camNear + extra)
      let p :=
        if env.PointInCone coneCenter coneDir height theta camPos then
          (p.emit (Event.glDisable GLCap.DEPTH_TEST)).emit (Event.glCullFace GLFace.FRONT)
        else
          (p.emit (Event.glEnable GLCap.DEPTH_TEST)).emit (Event.glCullFace GLFace.BACK)
      let p := p.emit (Event.ShaderBind shader)
      let p := p.emit (Event.BindCamera shader p.m_CurrentCamera)
      let p := p.emit (Event.BindMatrix shader Matrix4.WORLD_MATRIX worldMatrix)
      let p :=
        match castShadows, shadowData.1 with
        | true, some texture =>
          (p.emit (Event.BindTexture shader "shadow_buffer" texture)).emit
            (Event.BindMatrix shader "shadow_matrix" shadowData.2)
        | _, _ => p
      let p := p.emit (Event.BindLight shader node)
      let p := p.emit (Event.BindMesh shader mesh)
      let p := p.bindPassTextures shader pass
      let p := p.emit (Event.glDrawElements mesh.indices)
      let p := p.emit (Event.ShaderUnBind shader)
      let p := p.IncreaseDrawCall
      let p := p.IncreaseLightCount
      let p := p.emit (Event.PassUnBind pass.name)
      some (if castShadows then p.emit (Event.Collect shadowData.1) else p)
  | _, _ => none

/-- `PrelightPipeline::DrawQuad`, lines 497-525. -/
def DrawQuad (env : Env) (pass : Pass) (p : Pipeline) : Pipeline :=
  let mesh := env.GetUnitQuad
  match p.m_CurrentShader with
  | none => p.warn "Failed to draw full screen quad, shader not found!"
  | some shader =>
    let p := p.emit (Event.ShaderBind shader)
    let p := p.emit (Event.BindMesh shader mesh)
    let p := p.emit (Event.BindCamera shader p.m_CurrentCamera)
    let p := p.bindPassTextures shader pass
    let p := p.emit (Event.glDrawElements mesh.indices)
    let p := p.emit (Event.ShaderUnBind shader)
    let p := p.IncreaseDrawCall
    p.IncreaseTriangleCount mesh.indices

/-- The loop over `query->opaqueUnits` or `query->transparentUnits`. -/
def drawUnits (env : Env) (pass : Pass) (units : List RenderUnit) (p : Pipeline) : Pipeline :=
  units.foldl (fun q unit => DrawUnit env pass unit q) p

/-- The dispatch on the light type, lines 136-141. -/
def drawLight (env : Env) (pass : Pass) (ptr : Light) (node : SceneNode) (p : Pipeline) :
    Option Pipeline :=
  if ptr.type = LightType.DIRECTIONAL then DrawDirLight env pass node p
  else if ptr.type = LightType.POINT then DrawPointLight env pass node p
  else DrawSpotLight env pass node p

/-- The loop over `query->lightNodes`, lines 132-143. -/
def drawLights (env : Env) (pass : Pass) : List SceneNode → Pipeline → Option Pipeline
  | [], p => some p
  | node :: rest, p =>
    match node.light with
    | none => drawLights env pass rest p
    | some ptr =>
      match drawLight env pass ptr node p with
      | none => none
      | some q => drawLights env pass rest q

/-- The body of the pass loop for pass number `i` of `passCount`, lines 94-154.
The loop runs it for `i < passCount` only, where the unsigned `passCount - 1`
does not wrap and is the natural-number difference. -/
def passBody (env : Env) (query : RenderQuery) (passCount i : Nat) (pass : Pass)
    (p : Pipeline) : Option Pipeline :=
  let drawMode := pass.drawMode
  let p := { p with m_CurrentShader := pass.firstShader }
  match p.m_CurrentCamera with
  | none => some p
  | some _ =>
    let p := if i = passCount - 1 then p.emit (Event.glEnable GLCap.FRAMEBUFFER_SRGB) else p
    let drawn : Option Pipeline :=
      match drawMode with
      | DrawMode.OPAQUE =>
        let p := p.emit (Event.PassBind pass.name none)
        let p := drawUnits env pass query.opaqueUnits p
        some (p.emit (Event.PassUnBind pass.name))
      | DrawMode.TRANSPARENT =>
        let p := p.emit (Event.PassBind pass.name none)
        let p := drawUnits env pass query.transparentUnits p
        some (p.emit (Event.PassUnBind pass.name))
      | DrawMode.QUAD =>
        let p := p.emit (Event.PassBind pass.name none)
        let p := DrawQuad env pass p
        some (p.emit (Event.PassUnBind pass.name))
      | DrawMode.LIGHT =>
        let p := p.emit (Event.PassBind pass.name (some true))
        drawLights env pass query.lightNodes p
    match drawn with
    | none => none
    | some p =>
      let p := if i = passCount - 1 then p.emit (Event.glDisable GLCap.FRAMEBUFFER_SRGB) else p
      let p :=
        match p.m_CurrentShader with
        | some shader => p.emit (Event.ShaderUnBind shader)
        | none => p
      some { p with m_CurrentShader := none, m_CurrentMateral := none, m_CurrentMesh := none }

/-- The pass loop `for (i = 0; i < passCount; i++)`, from pass number `i` on. -/
def passLoop (env : Env) (query : RenderQuery) (passCount : Nat) :
    Nat → List Pass → Pipeline → Option Pipeline
  | _, [], p => some p
  | i, pass :: rest, p =>
    match passBody env query passCount i pass p with
    | none => none
    | some q => passLoop env query passCount (i + 1) rest q

/-- `PrelightPipeline::Execute`, lines 74-166. The assertion on the current
camera fails for a null camera: the result is `none`. -/
def Execute (env : Env) (p : Pipeline) : Option Pipeline :=
  match p.m_CurrentCamera with
  | none => none
  | some cam =>
    let p := { p with m_CurrentShader := none, m_CurrentMateral := none, m_CurrentMesh := none }
    let p := p.SortPassByIndex
    let query := env.QuerySort cam.worldPosition (env.GetRenderQuery cam.camera.frustum)
    let passCount := p.m_SortedPasses.length
    match passLoop env query passCount 0 p.m_SortedPasses p with
    | none => none
    | some p =>
      let p := if p.debugSwitch then p.emit Event.DrawDebug else p
      some { p with m_CurrentShader := none, m_CurrentMateral := none, m_CurrentMesh := none }

end Fury.PrelightPipeline

/-! ## `engine/src/PrelightPipeline.cpp` -/

namespace Src.PrelightPipeline

/-- The shader `DrawUnit` resolves for a unit, lines 148-152. -/
def unitShader (env : Env) (pass : Pass) (unit : RenderUnit) : Option Shader :=
  match env.GetShaderForPass unit.material pass.renderIndex with
  | some shader => some shader
  | none =>
    env.GetShader pass
      (if unit.mesh.IsSkinnedMesh then ShaderType.SKINNED_MESH else ShaderType.STATIC_MESH)
      unit.material.textureFlags

/-- `PrelightPipeline::DrawUnit`, lines 142-197: every unit binds everything. -/
def DrawUnit (env : Env) (pass : Pass) (unit : RenderUnit) (p : Pipeline) : Pipeline :=
  let node := unit.node
  let mesh := unit.mesh
  let material := unit.material
  match unitShader env pass unit with
  | none => p.warn ("Failed to draw " ++ node.name ++ ", shader not found!")
  | some shader =>
    let p := p.emit (Event.ShaderBind shader)
    let p := p.emit (Event.BindCamera shader p.m_CurrentCamera)
    let p := p.emit (Event.BindMatrix shader Matrix4.WORLD_MATRIX node.worldMatrix)
    let p := p.emit (Event.BindMaterial shader material)
    let p := p.bindPassTextures shader pass
    let p :=
      if mesh.GetSubMeshCount > 0 then
        let subMesh := mesh.GetSubMeshAt unit.subMesh
        let p := p.emit (Event.BindSubMesh shader mesh unit.subMesh)
        let p := p.emit (Event.glDrawElements subMesh)
        p.IncreaseTriangleCount subMesh
      else
        let p := p.emit (Event.BindMesh shader mesh)
        let p := p.emit (Event.glDrawElements mesh.indices)
        p.IncreaseTriangleCount mesh.indices
    let p := p.emit (Event.ShaderUnBind shader)
    let p := if mesh.IsSkinnedMesh then p.IncreaseSkinnedMeshCount else p.IncreaseMeshCount
    p.IncreaseDrawCall

/-- The name `DrawPointLight` passes to `GetShaderByName`, line 211. -/
def pointLightShaderName (castShadows : Bool) : String :=
  if castShadows then "pointlight_shadow_shader" else "pointlight_shader"

/-- The name `DrawDirLight` passes to `GetShaderByName`, line 289. -/
def dirLightShaderName (castShadows : Bool) : String :=
  if castShadows then "dirlight_csm_shader" else "dirlight_shader"

/-- The name `DrawSpotLight` passes to `GetShaderByName`, line 359. -/
def spotLightShaderName (castShadows : Bool) : String :=
  if castShadows then "spotlight_shadow_shader" else "spotlight_shader"

/-- `PrelightPipeline::DrawPointLight`, lines 199-275. -/
def DrawPointLight (env : Env) (pass : Pass) (node : SceneNode) (p : Pipeline) :
    Option Pipeline :=
  match node.light, p.m_CurrentCamera with
  | some light, some cam =>
    let camPtr := cam.camera
    let camPos := cam.worldPosition
    let mesh := light.mesh
    let worldMatrix := node.worldMatrix
    let castShadows := light.castShadows
    let p := p.lookup (pointLightShaderName castShadows)
    match env.GetShaderByName (pointLightShaderName castShadows) with
    | none => some (p.warn ("Shader for light " ++ node.name ++ " not found!"))
    | some shader =>
      let shadowData : Option Texture × Matrix4 :=
        if castShadows then env.DrawPointLightShadowMap pass node else (none, Matrix4.init)
      let p :=
        if castShadows then
          p.emit (Event.ShadowMap ShadowKind.pointLight pass.name node.name shadowData.1)
        else p
      let p := p.emit (Event.PassBind pass.name (some false))
      let camNear := env.Length (camPtr.frustum.corner0.sub camPos)
      let p :=
        if (SphereBounds.mk node.worldPosition (light.radius + camNear)).IsInsideFast camPos then
          (p.emit (Event.glDisable GLCap.DEPTH_TEST)).emit (Event.glCullFace GLFace.FRONT)
        else
          (p.emit (Event.glEnable GLCap.DEPTH_TEST)).emit (Event.glCullFace GLFace.BACK)
      let worldMatrix := worldMatrix.AppendScale light.radius
      let p := p.emit (Event.ShaderBind shader)
      let p := p.emit (Event.BindCamera shader p.m_CurrentCamera)
      let p := p.emit (Event.BindMatrix shader Matrix4.WORLD_MATRIX worldMatrix)
      let p :=
        match castShadows, shadowData.1 with
        | true, some texture =>
          (p.emit (Event.BindTexture shader "shadow_buffer" texture)).emit
            (Event.BindMatrix shader "shadow_matrix" shadowData.2)
        | _, _ => p
      let p := p.emit (Event.BindLight shader node)
      let p := p.emit (Event.BindMesh shader mesh)
      let p := p.bindPassTextures shader pass
      let p := p.emit (Event.glDrawElements mesh.indices)
      let p := p.emit (Event.ShaderUnBind shader)
      let p := p.IncreaseDrawCall
      let p := p.IncreaseLightCount
      let p := p.emit (Event.PassUnBind pass.name)
      some (if castShadows then p.emit (Event.Collect shadowData.1) else p)
  | _, _ => none

/-- `PrelightPipeline::DrawDirLight`, lines 277-345: a shadow-casting
directional light is always cascaded. -/
def DrawDirLight (env : Env) (pass : Pass) (node : SceneNode) (p : Pipeline) :
    Option Pipeline :=
  match node.light, p.m_CurrentCamera with
  | some light, some cam =>
    let camPtr := cam.camera
    let mesh := light.mesh
    let worldMatrix := node.worldMatrix
    let castShadows := light.castShadows
    let p := p.lookup (dirLightShaderName castShadows)
    match env.GetShaderByName (dirLightShaderName castShadows) with
    | none => some (p.warn ("Shader for light " ++ node.name ++ " not found!"))
    | some shader =>
      let shadowData : Option Texture × List Matrix4 :=
        if castShadows then env.DrawCascadedShadowMap pass node else (none, [])
      let p :=
        if castShadows then
          p.emit (Event.ShadowMap ShadowKind.cascaded pass.name node.name shadowData.1)
        else p
      let p := p.emit (Event.PassBind pass.name (some false))
      let p := p.emit (Event.glEnable GLCap.DEPTH_TEST)
      let p := p.emit (Event.glCullFace GLFace.BACK)
      let p := p.emit (Event.ShaderBind shader)
      let p := p.emit (Event.BindCamera shader p.m_CurrentCamera)
      let p := p.emit (Event.BindMatrix shader Matrix4.WORLD_MATRIX worldMatrix)
      let p :=
        match castShadows, shadowData.1 with
        | true, some texture =>
          let p := p.emit (Event.BindTexture shader "shadow_buffer" texture)
          let p := p.emit (Event.BindMatrices shader "shadow_matrix" shadowData.2)
          let base := camPtr.far - camPtr.near
          let average := base / 4
          p.emit (Event.BindFloat shader "shadow_far"
            [average, average * 2, average * 3, average * 4])
        | _, _ => p
      let p := p.emit (Event.BindLight shader node)
      let p := p.emit (Event.BindMesh shader mesh)
      let p := p.bindPassTextures shader pass
      let p := p.emit (Event.glDrawElements mesh.indices)
      let p := p.emit (Event.ShaderUnBind shader)
      let p := p.IncreaseDrawCall
      let p := p.IncreaseLightCount
      let p := p.emit (Event.PassUnBind pass.name)
      some (if castShadows then p.emit (Event.Collect shadowData.1) else p)
  | _, _ => none

/-- `PrelightPipeline::DrawSpotLight`, lines 347-431. -/
def DrawSpotLight (env : Env) (pass : Pass) (node : SceneNode) (p : Pipeline) :
    Option Pipeline :=
  match node.light, p.m_CurrentCamera with
  | some light, some cam =>
    let camPtr := cam.camera
    let camPos := cam.worldPosition
    let mesh := light.mesh
    let worldMatrix := node.worldMatrix
    let castShadows := light.castShadows
    let p := p.lookup (spotLightShaderName castShadows)
    match env.GetShaderByName (spotLightShaderName castShadows) with
    | none => some (p.warn ("Shader for light " ++ node.name ++ " not found!"))
    | some shader =>
      let shadowData : Option Texture × Matrix4 :=
        if castShadows then env.DrawSpotLightShadowMap pass node else (none, Matrix4.init)
      let p :=
        if castShadows then
          p.emit (Event.ShadowMap ShadowKind.spotLight pass.name node.name shadowData.1)
        else p
      let p := p.emit (Event.PassBind pass.name (some false))
      let coneCenter := node.worldPosition
      let coneDir := env.coneDirection worldMatrix
      let camNear := env.Length (camPtr.frustum.corner0.sub camPos)
      let theta := light.outterAngle * (1 / 2)
      let height := light.radius
      let extra := camNear / env.sin theta
      let coneCenter := coneCenter.sub (coneDir.scale extra)
      let height := height + (camNear + extra)
      let p :=
        if env.PointInCone coneCenter coneDir height theta camPos then
          (p.emit (Event.glDisable GLCap.DEPTH_TEST)).emit (Event.glCullFace GLFace.FRONT)
        else
          (p.emit (Event.glEnable GLCap.DEPTH_TEST)).emit (Event.glCullFace GLFace.BACK)
      let p := p.emit (Event.ShaderBind shader)
      let p := p.emit (Event.BindCamera shader p.m_CurrentCamera)
      let p := p.emit (Event.BindMatrix shader Matrix4.WORLD_MATRIX worldMatrix)
      let p :=
        match castShadows, shadowData.1 with
        | true, some texture =>
          (p.emit (Event.BindTexture shader "shadow_buffer" texture)).emit
            (Event.BindMatrix shader "shadow_matrix" shadowData.2)
        | _, _ => p
      let p := p.emit (Event.BindLight shader node)
      let p := p.emit (Event.BindMesh shader mesh)
      let p := p.bindPassTextures shader pass
      let p := p.emit (Event.glDrawElements mesh.indices)
      let p := p.emit (Event.ShaderUnBind shader)
      let p := p.IncreaseDrawCall
      let p := p.IncreaseLightCount
      let p := p.emit (Event.PassUnBind pass.name)
      some (if castShadows then p.emit (Event.Collect shadowData.1) else p)
  | _, _ => none

/-- `PrelightPipeline::DrawQuad`, lines 433-461. -/
def DrawQuad (env : Env) (pass : Pass) (p : Pipeline) : Pipeline :=
  let mesh := env.GetUnitQuad
  match p.m_CurrentShader with
  | none => p.warn "Failed to draw full screen quad, shader not found!"
  | some shader =>
    let p := p.emit (Event.ShaderBind shader)
    let p := p.emit (Event.BindMesh shader mesh)
    let p := p.emit (Event.BindCamera shader p.m_CurrentCamera)
    let p := p.bindPassTextures shader pass
    let p := p.emit (Event.glDrawElements mesh.indices)
    let p := p.emit (Event.ShaderUnBind shader)
    let p := p.IncreaseDrawCall
    p.IncreaseTriangleCount mesh.indices

/-- The loop over `query->opaqueUnits` or `query->transparentUnits`. -/
def drawUnits (env : Env) (pass : Pass) (units : List RenderUnit) (p : Pipeline) : Pipeline :=
  units.foldl (fun q unit => DrawUnit env pass unit q) p

/-- The dispatch on the light type, lines 119-124. -/
def drawLight (env : Env) (pass : Pass) (ptr : Light) (node : SceneNode) (p : Pipeline) :
    Option Pipeline :=
  if ptr.type = LightType.DIRECTIONAL then DrawDirLight env pass node p
  else if ptr.type = LightType.POINT then DrawPointLight env pass node p
  else DrawSpotLight env pass node p

/-- The loop over `query->lightNodes`, lines 115-126. -/
def drawLights (env : Env) (pass : Pass) : List SceneNode → Pipeline → Option Pipeline
  | [], p => some p
  | node :: rest, p =>
    match node.light with
    | none => drawLights env pass rest p
    | some ptr =>
      match drawLight env pass ptr node p with
      | none => none
      | some q => drawLights env pass rest q

/-- The loop that fills `queries`, lines 50-71, over the passes in the order in
which `for (auto pair : m_PassMap)` meets them: the map from camera name to
query is a list of pairs, searched by `List.lookup`. -/
def buildQueries (env : Env) :
    List Pass → List (String × RenderQuery) → Pipeline → List (String × RenderQuery) × Pipeline
  | [], queries, p => (queries, p)
  | pass :: rest, queries, p =>
    match pass.cameraNode with
    | none =>
      buildQueries env rest queries (p.warn ("Camera for pass " ++ pass.name ++ " not found!"))
    | some camNode =>
      match queries.lookup camNode.name with
      | some _ => buildQueries env rest queries p
      | none =>
        let query := env.QuerySort camNode.worldPosition (env.GetRenderQuery camNode.camera.frustum)
        buildQueries env rest (queries ++ [(camNode.name, query)]) p

/-- The body of the pass loop, lines 77-130. `queries[name]` of a name that is
not in the map is a null query; drawing units or lights from it is `none`. -/
def passBody (env : Env) (queries : List (String × RenderQuery)) (pass : Pass)
    (p : Pipeline) : Option Pipeline :=
  let drawMode := pass.drawMode
  let p := { p with m_CurrentCamera := pass.cameraNode, m_CurrentShader := pass.firstShader }
  match p.m_CurrentCamera with
  | none => some p
  | some cam =>
    let query := queries.lookup cam.name
    match drawMode with
    | DrawMode.OPAQUE =>
      let p := p.emit (Event.PassBind pass.name none)
      match query with
      | none => none
      | some query =>
        let p := drawUnits env pass query.opaqueUnits p
        some (p.emit (Event.PassUnBind pass.name))
    | DrawMode.TRANSPARENT =>
      let p := p.emit (Event.PassBind pass.name none)
      match query with
      | none => none
      | some query =>
        let p := drawUnits env pass query.transparentUnits p
        some (p.emit (Event.PassUnBind pass.name))
    | DrawMode.QUAD =>
      let p := p.emit (Event.PassBind pass.name none)
      let p := DrawQuad env pass p
      some (p.emit (Event.PassUnBind pass.name))
    | DrawMode.LIGHT =>
      let p := p.emit (Event.PassBind pass.name (some true))
      match query with
      | none => none
      | some query => drawLights env pass query.lightNodes p

/-- The pass loop `for (i = 0; i < m_SortedPasses.size(); i++)`. -/
def passLoop (env : Env) (queries : List (String × RenderQuery)) :
    List Pass → Pipeline → Option Pipeline
  | [], p => some p
  | pass :: rest, p =>
    match passBody env queries pass p with
    | none => none
    | some q => passLoop env queries rest q

/-- `PrelightPipeline::Execute`, lines 40-140. `m_PassMap` is a map keyed by
pass name, and the loop of line 50 meets its entries in the order of the
container, which the code does not choose: `visit` is the passes of the map in
that order. -/
def Execute (env : Env) (visit : List Pass) (p : Pipeline) : Option Pipeline :=
  let p := { p with m_CurrentCamera := none, m_CurrentShader := none }
  let p := p.SortPassByIndex
  let built := buildQueries env visit [] p
  let queries := built.1
  let p := built.2
  match passLoop env queries p.m_SortedPasses p with
  | none => none
  | some p =>
    let p := if p.debugSwitch then p.emit Event.DrawDebug else p
    some { p with m_CurrentCamera := none, m_CurrentShader := none }

end Src.PrelightPipeline

/-! ## Observations on the command stream -/

/-- The calls a step from `p` to `q` appended to the command stream. -/
def emitted (p q : Pipeline) : List Event := q.gpu.drop p.gpu.length

/-- An indexed draw call. -/
def Event.isDraw : Event → Bool
  | Event.glDrawElements _ => true
  | _ => false

/-- Number of indexed draw calls in a stretch of the command stream. -/
def drawCalls (es : List Event) : Nat := es.countP Event.isDraw

/-- The value lists of the `BindFloat` calls on the uniform `name`. -/
def boundFloats (name : String) : List Event → List (List ℚ)
  | [] => []
  | Event.BindFloat _ n values :: rest =>
    if n = name then values :: boundFloats name rest else boundFloats name rest
  | _ :: rest => boundFloats name rest

/-- Modelled from the spec: the texture pool (`Texture::GetTempory`,
`Texture::CollectTempory`) is not among the sources. The spec has a shadow-map
generator obtain the one texture it returns from the pool, and has `Collect`
return a texture to the pool; a generator that returns no texture holds none,
and collecting a null texture returns none. -/
def poolChange : Event → Int
  | Event.ShadowMap _ _ _ (some _) => 1
  | Event.Collect (some _) => -1
  | _ => 0

/-- Shadow textures acquired and not yet collected after a stretch of the
command stream that starts with none outstanding. -/
def poolOutstanding (es : List Event) : Int := (es.map poolChange).sum

/-- A call that sets the depth test or the culled face. -/
def Event.isDepthCull : Event → Bool
  | Event.glEnable GLCap.DEPTH_TEST => true
  | Event.glDisable GLCap.DEPTH_TEST => true
  | Event.glCullFace _ => true
  | _ => false

/-- The depth-test and face-culling calls of a stretch of the command stream. -/
def depthCullPolicy (es : List Event) : List Event := es.filter Event.isDepthCull

/-- A binding of shadow data: a texture on `shadow_buffer`, a matrix or
matrices on `shadow_matrix`, floats on `shadow_far`. -/
def Event.isShadowBinding : Event → Bool
  | Event.BindTexture _ name _ => decide (name = "shadow_buffer")
  | Event.BindMatrix _ name _ => decide (name = "shadow_matrix")
  | Event.BindMatrices _ name _ => decide (name = "shadow_matrix")
  | Event.BindFloat _ name _ => decide (name = "shadow_far")
  | _ => false

/-- The state of `GL_FRAMEBUFFER_SRGB` after a stretch of the command stream
entered with the state `flag`. -/
def srgbAfter (flag : Bool) : List Event → Bool
  | [] => flag
  | Event.glEnable GLCap.FRAMEBUFFER_SRGB :: rest => srgbAfter true rest
  | Event.glDisable GLCap.FRAMEBUFFER_SRGB :: rest => srgbAfter false rest
  | _ :: rest => srgbAfter flag rest

/-- The state of `GL_FRAMEBUFFER_SRGB` at each drawing call of a stretch of
the command stream entered with the state `flag`: at each indexed draw call
and at each shadow-map generation (which draws the shadow casters). -/
def drawFlags (flag : Bool) : List Event → List Bool
  | [] => []
  | Event.glEnable GLCap.FRAMEBUFFER_SRGB :: rest => drawFlags true rest
  | Event.glDisable GLCap.FRAMEBUFFER_SRGB :: rest => drawFlags false rest
  | Event.glDrawElements _ :: rest => flag :: drawFlags flag rest
  | Event.ShadowMap _ _ _ _ :: rest => flag :: drawFlags flag rest
  | _ :: rest => drawFlags flag rest

/-- The world matrix in force at each indexed draw call: the matrix of the
latest `BindMatrix` on `Matrix4::WORLD_MATRIX`, `cur` before the first. -/
def drawnWorld (cur : Option Matrix4) : List Event → List (Option Matrix4)
  | [] => []
  | Event.BindMatrix _ name m :: rest =>
    if name = Matrix4.WORLD_MATRIX then drawnWorld (some m) rest else drawnWorld cur rest
  | Event.glDrawElements _ :: rest => cur :: drawnWorld cur rest
  | _ :: rest => drawnWorld cur rest

/-- The largest number of outstanding shadow textures reached while a stretch
of the command stream runs, entered with `cur` outstanding. -/
def poolPeak : Int → List Event → Int
  | cur, [] => cur
  | cur, e :: es => max cur (poolPeak (cur + poolChange e) es)

/-- The step from `p` to `q` leaves the pipeline's own fields as they were:
it changes the command stream, the counters, the log and the lookups only. -/
def sameFields (p q : Pipeline) : Prop :=
  q.m_CurrentCamera = p.m_CurrentCamera ∧ q.m_CurrentShader = p.m_CurrentShader ∧
  q.m_CurrentMateral = p.m_CurrentMateral ∧ q.m_CurrentMesh = p.m_CurrentMesh ∧
  q.CASCADED_SHADOW_MAP = p.CASCADED_SHADOW_MAP ∧ q.debugSwitch = p.debugSwitch ∧
  q.m_PassMap = p.m_PassMap ∧ q.m_SortedPasses = p.m_SortedPasses

/-- The counters after one light was drawn. -/
def lightDrawn (s : RenderUtil) : RenderUtil :=
  { s with drawCall := s.drawCall + 1, lightCount := s.lightCount + 1 }

/-- The shader-name table as the specification words it: the name selected
for a light type, its `castShadows` flag and the cascaded-shadow switch. -/
def lightShaderTable : LightType → Bool → Bool → String
  | LightType.DIRECTIONAL, true, true => "dirlight_csm_shader"
  | LightType.DIRECTIONAL, true, false => "dirlight_shadow_shader"
  | LightType.DIRECTIONAL, false, _ => "dirlight_shader"
  | LightType.POINT, true, _ => "pointlight_shadow_shader"
  | LightType.POINT, false, _ => "pointlight_shader"
  | LightType.SPOT, true, _ => "spotlight_shadow_shader"
  | LightType.SPOT, false, _ => "spotlight_shader"

namespace Fury.PrelightPipeline

/-- The name the procedure `drawLight` dispatches to passes to
`GetShaderByName`. -/
def selectedShaderName (ptr : Light) (useCascaded : Bool) : String :=
  if ptr.type = LightType.DIRECTIONAL then dirLightShaderName ptr.castShadows useCascaded
  else if ptr.type = LightType.POINT then pointLightShaderName ptr.castShadows
  else spotLightShaderName ptr.castShadows

/-- Whether `node` carries a light whose selected shader is registered. -/
def shaderFound (env : Env) (useCascaded : Bool) (node : SceneNode) : Bool :=
  match node.light with
  | none => false
  | some ptr => (env.GetShaderByName (selectedShaderName ptr useCascaded)).isSome

/-- The counters after `n` lights were drawn. -/
def lightsDrawn (n : Nat) (s : RenderUtil) : RenderUtil :=
  { s with drawCall := s.drawCall + n, lightCount := s.lightCount + n }

end Fury.PrelightPipeline

/-- The step from `p` to `q` leaves the camera, the switches and the passes
as they were. -/
def sameConfig (p q : Pipeline) : Prop :=
  q.m_CurrentCamera = p.m_CurrentCamera ∧
  q.CASCADED_SHADOW_MAP = p.CASCADED_SHADOW_MAP ∧ q.debugSwitch = p.debugSwitch ∧
  q.m_PassMap = p.m_PassMap ∧ q.m_SortedPasses = p.m_SortedPasses

namespace Fury.PrelightPipeline

/-- The head of an iteration of the pass loop, lines 99-106: the first shader
of the pass becomes current, the last pass enables `GL_FRAMEBUFFER_SRGB`. -/
def passEnter (passCount i : Nat) (pass : Pass) (p : Pipeline) : Pipeline :=
  if i = passCount - 1 then
    ({ p with m_CurrentShader := pass.firstShader } : Pipeline).emit
      (Event.glEnable GLCap.FRAMEBUFFER_SRGB)
  else { p with m_CurrentShader := pass.firstShader }

/-- The tail of an iteration of the pass loop, lines 146-154. -/
def passLeave (passCount i : Nat) (p : Pipeline) : Pipeline :=
  let p := if i = passCount - 1 then p.emit (Event.glDisable GLCap.FRAMEBUFFER_SRGB) else p
  let p :=
    match p.m_CurrentShader with
    | some shader => p.emit (Event.ShaderUnBind shader)
    | none => p
  { p with m_CurrentShader := none, m_CurrentMateral := none, m_CurrentMesh := none }

/-- The calls `passEnter` appends. -/
def enterEvents (passCount i : Nat) : List Event :=
  if i = passCount - 1 then [Event.glEnable GLCap.FRAMEBUFFER_SRGB] else []

/-- The calls `passLeave` appends when `shader` is current. -/
def leaveEvents (passCount i : Nat) (shader : Option Shader) : List Event :=
  (if i = passCount - 1 then [Event.glDisable GLCap.FRAMEBUFFER_SRGB] else []) ++
    (match shader with
     | some s => [Event.ShaderUnBind s]
     | none => [])

end Fury.PrelightPipeline

/-- A stretch of the command stream that leaves `GL_FRAMEBUFFER_SRGB` alone:
replayed from either state it ends in that state, and every drawing call in it
sees that state. -/
def srgbQuiet (es : List Event) : Prop :=
  ∀ flag, srgbAfter flag es = flag ∧ ∀ b ∈ drawFlags flag es, b = flag

namespace Fury.PrelightPipeline

/-- The pipeline at the start of the pass loop of `Execute`: transient state
reset and passes sorted, lines 79-82. -/
def frameStart (p : Pipeline) : Pipeline :=
  ({ p with m_CurrentShader := none, m_CurrentMateral := none, m_CurrentMesh := none }
    : Pipeline).SortPassByIndex

/-- The query `Execute` draws from, lines 85-87. -/
def frameQuery (env : Env) (cam : CameraNode) : RenderQuery :=
  env.QuerySort cam.worldPosition (env.GetRenderQuery cam.camera.frustum)

/-- The pipeline as the pass loop of `Execute` finds it before pass number `k`. -/
def beforePass (env : Env) (cam : CameraNode) (p : Pipeline) (k : Nat) : Option Pipeline :=
  passLoop env (frameQuery env cam) (frameStart p).m_SortedPasses.length 0
    ((frameStart p).m_SortedPasses.take k) (frameStart p)

end Fury.PrelightPipeline

/-! ## Bindings in force at a draw call -/

/-- What is bound when a draw call is issued: the shader of the latest
`Shader::Bind` (none after an `UnBind`), the argument of the latest
`BindCamera`, the textures bound since the shader was bound, the latest
material, the mesh of the latest `BindMesh` or `BindSubMesh`, the sub-mesh
index when the latest of the two was a `BindSubMesh`, and the latest world
matrix. -/
structure Bindings where
  shader : Option Shader
  camera : Option (Option CameraNode)
  textures : List (String × Texture)
  material : Option Material
  mesh : Option Mesh
  subMesh : Option Nat
  world : Option Matrix4
deriving DecidableEq

/-- The bindings after one more call. -/
def Bindings.apply (b : Bindings) : Event → Bindings
  | Event.ShaderBind s => { b with shader := some s, textures := [] }
  | Event.ShaderUnBind _ => { b with shader := none }
  | Event.BindCamera _ c => { b with camera := some c }
  | Event.BindMatrix _ name m =>
    if name = Matrix4.WORLD_MATRIX then { b with world := some m } else b
  | Event.BindTexture _ n t => { b with textures := b.textures ++ [(n, t)] }
  | Event.BindMaterial _ m => { b with material := some m }
  | Event.BindMesh _ m => { b with mesh := some m, subMesh := none }
  | Event.BindSubMesh _ m i => { b with mesh := some m, subMesh := some i }
  | _ => b

/-- The bindings after a stretch of the command stream. -/
def replayBindings (b : Bindings) (es : List Event) : Bindings := es.foldl Bindings.apply b

/-- A `Bind` or `UnBind` on the pass called `name`. -/
def Event.onPass (name : String) : Event → Bool
  | Event.PassBind n _ => decide (n = name)
  | Event.PassUnBind n => decide (n = name)
  | _ => false

/-- The last `Bind` or `UnBind` on the pass called `name` in a stretch of the
command stream. -/
def lastPassEvent (name : String) (es : List Event) : Option Event :=
  (es.filter (Event.onPass name)).getLast?

/-! ## The queries of the per-pass-camera `Execute` -/

namespace Src.PrelightPipeline

/-- The cameras of the passes that have one, in the order of the passes. -/
def passCameras (passes : List Pass) : List CameraNode :=
  passes.filterMap (fun pass => pass.cameraNode)

/-- The visibility query of a camera: what `GetRenderQuery` finds in its
frustum, sorted by its position, lines 67-68. -/
def cameraQuery (env : Env) (cam : CameraNode) : RenderQuery :=
  env.QuerySort cam.worldPosition (env.GetRenderQuery cam.camera.frustum)

/-- The first camera of a given name among the passes, in the order given. -/
def firstCameraNamed (name : String) (passes : List Pass) : Option CameraNode :=
  (passCameras passes).find? (fun cam => cam.name == name)

/-- The pipeline after the first lines of `Execute`, lines 43-45. -/
def frameStart (p : Pipeline) : Pipeline :=
  ({ p with m_CurrentCamera := none, m_CurrentShader := none } : Pipeline).SortPassByIndex

/-- The queries `Execute` has computed when its pass loop starts, lines 47-71,
when the pass map is met in the order `visit`. -/
def frameQueries (env : Env) (visit : List Pass) (p : Pipeline) :
    List (String × RenderQuery) :=
  (buildQueries env visit [] (frameStart p)).1

/-- The pipeline as the pass loop of `Execute` finds it, line 75. -/
def afterQueries (env : Env) (visit : List Pass) (p : Pipeline) : Pipeline :=
  (buildQueries env visit [] (frameStart p)).2

/-- The end of `Execute` after the pass loop, lines 133-139. -/
def frameFinish (p : Pipeline) : Pipeline :=
  let p := if p.debugSwitch then p.emit Event.DrawDebug else p
  { p with m_CurrentCamera := none, m_CurrentShader := none }

end Src.PrelightPipeline

/-! ## A small scene, for the concrete instances -/

namespace Sample

def sphere : Mesh := ⟨"sphere", false, 36, []⟩

def quad : Mesh := ⟨"quad", false, 6, []⟩

/-- A camera at distance 5 from the origin, near 1 and far 101. -/
def camera : CameraNode := ⟨"camera", ⟨3, 4, 0⟩, ⟨1, 101, ⟨0, ⟨3, 4, 1⟩⟩⟩⟩

/-- A camera at distance 10 from the origin. -/
def farCamera : CameraNode := ⟨"far_camera", ⟨6, 8, 0⟩, ⟨1, 101, ⟨1, ⟨6, 8, 1⟩⟩⟩⟩

/-- A directional light that casts shadows. -/
def sun : SceneNode :=
  ⟨"sun", ⟨0, 0, 0⟩, Matrix4.raw 1, some ⟨LightType.DIRECTIONAL, 0, 0, true, quad⟩⟩

/-- A point light of radius 4 at the origin that casts shadows. -/
def lamp : SceneNode :=
  ⟨"lamp", ⟨0, 0, 0⟩, Matrix4.raw 2, some ⟨LightType.POINT, 4, 0, true, sphere⟩⟩

/-- A spot light without shadows; its shader is not registered in `env`. -/
def torch : SceneNode :=
  ⟨"torch", ⟨0, 0, 0⟩, Matrix4.raw 3, some ⟨LightType.SPOT, 4, 1, false, sphere⟩⟩

/-- An engine in which every shader but `spotlight_shader` is registered, the
cascaded generator returns a texture and the point-light generator none. -/
def env : Env where
  GetShaderByName := fun name => if name = "spotlight_shader" then none else some ⟨name⟩
  GetShaderForPass := fun _ _ => none
  GetShader := fun _ _ flags => if flags = 0 then none else some ⟨"mesh_shader"⟩
  GetUnitQuad := quad
  DrawPointLightShadowMap := fun _ _ => (none, Matrix4.init)
  DrawDirLightShadowMap := fun _ _ => (some ⟨"dir_shadow"⟩, Matrix4.raw 10)
  DrawSpotLightShadowMap := fun _ _ => (some ⟨"spot_shadow"⟩, Matrix4.raw 20)
  DrawCascadedShadowMap := fun _ _ =>
    (some ⟨"csm_shadow"⟩, [Matrix4.raw 11, Matrix4.raw 12, Matrix4.raw 13, Matrix4.raw 14])
  Length := fun _ => 1
  coneDirection := fun _ => ⟨0, -1, 0⟩
  sin := fun x => x
  PointInCone := fun _ _ _ _ _ => false
  GetRenderQuery := fun _ => ⟨[], [], [sun, torch, lamp]⟩
  QuerySort := fun _ query => query

def lightPass : Pass := ⟨"light", 2, DrawMode.LIGHT, [⟨"gbuffer_depth"⟩], none, some camera⟩

def quadPass : Pass := ⟨"post", 3, DrawMode.QUAD, [⟨"light_buffer"⟩], some ⟨"post_shader"⟩, some camera⟩

/-- A pipeline at the start of a frame, with the cascaded switch on. -/
def pipeline : Pipeline where
  m_CurrentCamera := some camera
  m_CurrentShader := none
  m_CurrentMateral := none
  m_CurrentMesh := none
  CASCADED_SHADOW_MAP := true
  debugSwitch := false
  m_PassMap := [quadPass, lightPass]
  m_SortedPasses := []
  stats := ⟨0, 0, 0, 0, 0⟩
  gpu := []
  log := []
  lookups := []

end Sample

namespace Sample

/-- A mesh with two sub-meshes. -/
def crate : Mesh := ⟨"crate", false, 36, [12, 24]⟩

def pane : Mesh := ⟨"pane", false, 6, []⟩

/-- A material for which `env` has a shader. -/
def wood : Material := ⟨"wood", 1⟩

/-- A material for which `env` has no shader. -/
def fog : Material := ⟨"fog", 0⟩

def glass : Material := ⟨"glass", 2⟩

def opaquePass : Pass := ⟨"gbuffer", 0, DrawMode.OPAQUE, [⟨"noise"⟩], none, some camera⟩

def transparentPass : Pass := ⟨"blend", 1, DrawMode.TRANSPARENT, [], none, some camera⟩

def crateA : RenderUnit := ⟨⟨"crate_a", ⟨0, 0, 5⟩, Matrix4.raw 5, none⟩, crate, wood, 0⟩

def crateB : RenderUnit := ⟨⟨"crate_b", ⟨0, 0, 9⟩, Matrix4.raw 6, none⟩, crate, wood, 1⟩

/-- Three transparent units, the farthest first; the middle one has no shader. -/
def windowFar : RenderUnit := ⟨⟨"window_far", ⟨0, 0, 30⟩, Matrix4.raw 30, none⟩, pane, glass, 0⟩

def mist : RenderUnit := ⟨⟨"mist", ⟨0, 0, 20⟩, Matrix4.raw 20, none⟩, pane, fog, 0⟩

def windowNear : RenderUnit := ⟨⟨"window_near", ⟨0, 0, 10⟩, Matrix4.raw 10, none⟩, pane, glass, 0⟩

end Sample

namespace Sample

/-- The sample pipeline with a shader, a material and a mesh left over from
earlier drawing. -/
def stalePipeline : Pipeline :=
  { pipeline with
    m_CurrentShader := some ⟨"stale"⟩
    m_CurrentMateral := some wood
    m_CurrentMesh := some crate }

/-- A second camera node that is also called `camera`, elsewhere and with
another frustum. -/
def twinCamera : CameraNode := ⟨"camera", ⟨6, 8, 0⟩, ⟨1, 101, ⟨1, ⟨6, 8, 1⟩⟩⟩⟩

/-- A scene in which the frustum of `camera` holds the first crate and any other
frustum holds the second. -/
def twinEnv : Env :=
  { env with
    GetRenderQuery := fun frustum =>
      if frustum.tag = 0 then ⟨[crateA], [], []⟩ else ⟨[crateB], [], []⟩ }

def nearPass : Pass := ⟨"near", 0, DrawMode.OPAQUE, [], none, some camera⟩

def twinPass : Pass := ⟨"twin", 1, DrawMode.OPAQUE, [], none, some twinCamera⟩

/-- The sample pipeline with one pass for each of the two cameras called
`camera`. -/
def twinPipeline : Pipeline :=
  { pipeline with m_PassMap := [nearPass, twinPass] }

/-- A pass like `twinPass` whose camera has a name of its own; its frustum
holds the second crate. -/
def farPass : Pass := ⟨"far", 1, DrawMode.OPAQUE, [], none, some farCamera⟩

/-- The sample pipeline with two passes whose cameras have different names. -/
def farPipeline : Pipeline :=
  { pipeline with m_PassMap := [nearPass, farPass] }

/-- A light pass one of whose own textures is called `shadow_buffer`. -/
def shadowNamedPass : Pass :=
  ⟨"light", 2, DrawMode.LIGHT, [⟨"shadow_buffer"⟩], none, some camera⟩

end Sample

/-! ## Lemmas on the helpers and the observations -/

namespace Pipeline

@[simp] theorem emit_gpu (p : Pipeline) (e : Event) : (p.emit e).gpu = p.gpu ++ [e] := rfl

@[simp] theorem emits_gpu (p : Pipeline) (es : List Event) : (p.emits es).gpu = p.gpu ++ es := rfl

theorem bindPassTextures_eq (p : Pipeline) (shader : Shader) (pass : Pass) :
    p.bindPassTextures shader pass =
      p.emits (pass.textures.map (fun ptr => Event.BindTexture shader ptr.name ptr)) := by
  unfold bindPassTextures
  generalize pass.textures = ts
  induction ts generalizing p with
  | nil => simp [emits]
  | cons t ts ih =>
    rw [List.foldl_cons, ih]
    simp [emits, emit]

end Pipeline

theorem emitted_append (p q : Pipeline) (es : List Event) (h : q.gpu = p.gpu ++ es) :
    emitted p q = es := by
  simp [emitted, h]

theorem emitted_self (p : Pipeline) : emitted p p = [] := by
  simp [emitted]

theorem emitted_trans (p q r : Pipeline) (h1 : q.gpu = p.gpu ++ emitted p q)
    (h2 : r.gpu = q.gpu ++ emitted q r) :
    r.gpu = p.gpu ++ emitted p r ∧ emitted p r = emitted p q ++ emitted q r := by
  have h : r.gpu = p.gpu ++ (emitted p q ++ emitted q r) := by
    rw [← List.append_assoc, ← h1, ← h2]
  have h3 := emitted_append p r _ h
  rw [h3]
  exact ⟨h, rfl⟩

theorem drawCalls_append (a b : List Event) : drawCalls (a ++ b) = drawCalls a + drawCalls b := by
  simp [drawCalls]

@[simp] theorem drawCalls_passTextures (shader : Shader) (ts : List Texture) :
    drawCalls (ts.map (fun ptr => Event.BindTexture shader ptr.name ptr)) = 0 := by
  induction ts with
  | nil => rfl
  | cons t ts ih => simp [drawCalls, Event.isDraw]

theorem poolOutstanding_append (a b : List Event) :
    poolOutstanding (a ++ b) = poolOutstanding a + poolOutstanding b := by
  simp [poolOutstanding]

@[simp] theorem poolOutstanding_passTextures (shader : Shader) (ts : List Texture) :
    poolOutstanding (ts.map (fun ptr => Event.BindTexture shader ptr.name ptr)) = 0 := by
  induction ts with
  | nil => rfl
  | cons t ts ih =>
    have h : poolOutstanding (Event.BindTexture shader t.name t ::
        ts.map (fun ptr => Event.BindTexture shader ptr.name ptr)) =
        poolChange (Event.BindTexture shader t.name t) +
          poolOutstanding (ts.map (fun ptr => Event.BindTexture shader ptr.name ptr)) := by
      simp [poolOutstanding]
    rw [List.map_cons, h, ih]
    rfl

@[simp] theorem poolOutstanding_nil : poolOutstanding [] = 0 := rfl

theorem poolOutstanding_cons (e : Event) (es : List Event) :
    poolOutstanding (e :: es) = poolChange e + poolOutstanding es := by
  simp [poolOutstanding]

theorem srgbAfter_append (flag : Bool) (a b : List Event) :
    srgbAfter flag (a ++ b) = srgbAfter (srgbAfter flag a) b := by
  induction a generalizing flag with
  | nil => rfl
  | cons e a ih =>
    cases e with
    | glEnable cap => cases cap <;> simp [srgbAfter, ih]
    | glDisable cap => cases cap <;> simp [srgbAfter, ih]
    | _ => simp [srgbAfter, ih]

theorem drawFlags_append (flag : Bool) (a b : List Event) :
    drawFlags flag (a ++ b) = drawFlags flag a ++ drawFlags (srgbAfter flag a) b := by
  induction a generalizing flag with
  | nil => rfl
  | cons e a ih =>
    cases e with
    | glEnable cap => cases cap <;> simp [srgbAfter, drawFlags, ih]
    | glDisable cap => cases cap <;> simp [srgbAfter, drawFlags, ih]
    | _ => simp [srgbAfter, drawFlags, ih]

@[simp] theorem srgbAfter_passTextures (flag : Bool) (shader : Shader) (ts : List Texture) :
    srgbAfter flag (ts.map (fun ptr => Event.BindTexture shader ptr.name ptr)) = flag := by
  induction ts with
  | nil => rfl
  | cons t ts ih => simpa [srgbAfter] using ih

@[simp] theorem drawFlags_passTextures (flag : Bool) (shader : Shader) (ts : List Texture) :
    drawFlags flag (ts.map (fun ptr => Event.BindTexture shader ptr.name ptr)) = [] := by
  induction ts with
  | nil => rfl
  | cons t ts ih => simpa [drawFlags] using ih

theorem boundFloats_append (name : String) (a b : List Event) :
    boundFloats name (a ++ b) = boundFloats name a ++ boundFloats name b := by
  induction a with
  | nil => rfl
  | cons e a ih =>
    cases e with
    | BindFloat s n values =>
      by_cases h : n = name <;> simp [boundFloats, h, ih]
    | _ => simp [boundFloats, ih]

@[simp] theorem boundFloats_passTextures (name : String) (shader : Shader) (ts : List Texture) :
    boundFloats name (ts.map (fun ptr => Event.BindTexture shader ptr.name ptr)) = [] := by
  induction ts with
  | nil => rfl
  | cons t ts ih => simpa [boundFloats] using ih

@[simp] theorem depthCullPolicy_passTextures (shader : Shader) (ts : List Texture) :
    depthCullPolicy (ts.map (fun ptr => Event.BindTexture shader ptr.name ptr)) = [] := by
  induction ts with
  | nil => rfl
  | cons t ts ih => simp [depthCullPolicy, Event.isDepthCull]

theorem poolPeak_append (cur : Int) (a b : List Event) :
    poolPeak cur (a ++ b) = max (poolPeak cur a) (poolPeak (cur + poolOutstanding a) b) := by
  induction a generalizing cur with
  | nil => 
    have h : cur ≤ poolPeak cur b := by
      cases b with
      | nil => exact le_refl _
      | cons e b => exact le_max_left _ _
    simp [poolPeak, poolOutstanding, h]
  | cons e a ih =>
    have h := ih (cur + poolChange e)
    rw [add_assoc] at h
    show max cur (poolPeak (cur + poolChange e) (a ++ b)) = _
    rw [h, poolOutstanding_cons]
    simp only [poolPeak]
    rw [max_assoc]

theorem le_poolPeak (cur : Int) (es : List Event) : cur ≤ poolPeak cur es := by
  cases es with
  | nil => exact le_refl _
  | cons e es => exact le_max_left _ _

@[simp] theorem poolPeak_passTextures (cur : Int) (shader : Shader) (ts : List Texture) :
    poolPeak cur (ts.map (fun ptr => Event.BindTexture shader ptr.name ptr)) = cur := by
  induction ts with
  | nil => rfl
  | cons t ts ih => simp [poolPeak, poolChange, ih]

/-- The peak bounds what every prefix leaves outstanding. -/
theorem prefix_le_poolPeak (cur : Int) (es : List Event) (k : Nat) :
    cur + poolOutstanding (es.take k) ≤ poolPeak cur es := by
  induction es generalizing cur k with
  | nil => simp [poolOutstanding, poolPeak]
  | cons e es ih =>
    cases k with
    | zero => simpa [poolOutstanding] using le_poolPeak cur (e :: es)
    | succ k =>
      rw [List.take_succ_cons, poolOutstanding_cons, ← add_assoc]
      exact le_trans (ih (cur + poolChange e) k) (le_max_right _ _)

/-! ## The light procedures of `engine/Fury/PrelightPipeline.cpp` -/

namespace Fury.PrelightPipeline

theorem DrawPointLight_missing (env : Env) (pass : Pass) (node : SceneNode) (p : Pipeline)
    (light : Light) (cam : CameraNode)
    (hl : node.light = some light) (hc : p.m_CurrentCamera = some cam)
    (hs : env.GetShaderByName (pointLightShaderName light.castShadows) = none) :
    DrawPointLight env pass node p =
      some ((p.lookup (pointLightShaderName light.castShadows)).warn
        ("Shader for light " ++ node.name ++ " not found!")) := by
  unfold DrawPointLight
  simp only [hl, hc]
  simp only [Pipeline.lookup, hs]

theorem DrawPointLight_found (env : Env) (pass : Pass) (node : SceneNode) (p : Pipeline)
    (light : Light) (cam : CameraNode) (shader : Shader)
    (hl : node.light = some light) (hc : p.m_CurrentCamera = some cam)
    (hs : env.GetShaderByName (pointLightShaderName light.castShadows) = some shader) :
    ∃ q, DrawPointLight env pass node p = some q ∧ q.gpu = p.gpu ++ emitted p q ∧
      drawCalls (emitted p q) = 1 ∧ q.stats = lightDrawn p.stats ∧
      q.lookups = p.lookups ++ [pointLightShaderName light.castShadows] ∧ q.log = p.log ∧
      sameFields p q ∧ poolOutstanding (emitted p q) = 0 ∧ poolPeak 0 (emitted p q) ≤ 1 ∧
      (∀ flag, srgbAfter flag (emitted p q) = flag ∧
        ∀ b ∈ drawFlags flag (emitted p q), b = flag) := by
  unfold DrawPointLight
  simp only [hl, hc]
  simp only [Pipeline.lookup, hs]
  cases hcast : light.castShadows <;>
  cases htex : (env.DrawPointLightShadowMap pass node).1 <;>
  cases hin : (SphereBounds.mk node.worldPosition (light.radius +
      env.Length (cam.camera.frustum.corner0.sub cam.worldPosition))).IsInsideFast
        cam.worldPosition <;>
    simp [emitted, Pipeline.bindPassTextures_eq, Pipeline.emits, Pipeline.emit,
      Pipeline.IncreaseDrawCall, Pipeline.IncreaseLightCount, htex, hin, drawCalls_append,
      drawCalls, Event.isDraw, List.countP_cons, lightDrawn, sameFields, hc, srgbAfter_append,
      drawFlags_append, srgbAfter, drawFlags, poolOutstanding_append, poolOutstanding_cons,
      poolChange, poolPeak_append, poolPeak]

theorem DrawSpotLight_missing (env : Env) (pass : Pass) (node : SceneNode) (p : Pipeline)
    (light : Light) (cam : CameraNode)
    (hl : node.light = some light) (hc : p.m_CurrentCamera = some cam)
    (hs : env.GetShaderByName (spotLightShaderName light.castShadows) = none) :
    DrawSpotLight env pass node p =
      some ((p.lookup (spotLightShaderName light.castShadows)).warn
        ("Shader for light " ++ node.name ++ " not found!")) := by
  unfold DrawSpotLight
  simp only [hl, hc]
  simp only [Pipeline.lookup, hs]

theorem DrawSpotLight_found (env : Env) (pass : Pass) (node : SceneNode) (p : Pipeline)
    (light : Light) (cam : CameraNode) (shader : Shader)
    (hl : node.light = some light) (hc : p.m_CurrentCamera = some cam)
    (hs : env.GetShaderByName (spotLightShaderName light.castShadows) = some shader) :
    ∃ q, DrawSpotLight env pass node p = some q ∧ q.gpu = p.gpu ++ emitted p q ∧
      drawCalls (emitted p q) = 1 ∧ q.stats = lightDrawn p.stats ∧
      q.lookups = p.lookups ++ [spotLightShaderName light.castShadows] ∧ q.log = p.log ∧
      sameFields p q ∧ poolOutstanding (emitted p q) = 0 ∧ poolPeak 0 (emitted p q) ≤ 1 ∧
      (∀ flag, srgbAfter flag (emitted p q) = flag ∧
        ∀ b ∈ drawFlags flag (emitted p q), b = flag) := by
  unfold DrawSpotLight
  simp only [hl, hc]
  simp only [Pipeline.lookup, hs]
  cases hcast : light.castShadows <;>
  cases htex : (env.DrawSpotLightShadowMap pass node).1 <;>
  cases hin : env.PointInCone
      (node.worldPosition.sub ((env.coneDirection node.worldMatrix).scale
        (env.Length (cam.camera.frustum.corner0.sub cam.worldPosition) /
          env.sin (light.outterAngle * (1 / 2)))))
      (env.coneDirection node.worldMatrix)
      (light.radius + (env.Length (cam.camera.frustum.corner0.sub cam.worldPosition) +
        env.Length (cam.camera.frustum.corner0.sub cam.worldPosition) /
          env.sin (light.outterAngle * (1 / 2))))
      (light.outterAngle * (1 / 2)) cam.worldPosition <;>
    simp [emitted, Pipeline.bindPassTextures_eq, Pipeline.emits, Pipeline.emit,
      Pipeline.IncreaseDrawCall, Pipeline.IncreaseLightCount, htex, hin, drawCalls_append,
      drawCalls, Event.isDraw, List.countP_cons, lightDrawn, sameFields, hc, srgbAfter_append,
      drawFlags_append, srgbAfter, drawFlags, poolOutstanding_append, poolOutstanding_cons,
      poolChange, poolPeak_append, poolPeak]

theorem DrawDirLight_missing (env : Env) (pass : Pass) (node : SceneNode) (p : Pipeline)
    (light : Light) (cam : CameraNode)
    (hl : node.light = some light) (hc : p.m_CurrentCamera = some cam)
    (hs : env.GetShaderByName
      (dirLightShaderName light.castShadows p.CASCADED_SHADOW_MAP) = none) :
    DrawDirLight env pass node p =
      some ((p.lookup (dirLightShaderName light.castShadows p.CASCADED_SHADOW_MAP)).warn
        ("Shader for light " ++ node.name ++ " not found!")) := by
  unfold DrawDirLight
  simp only [hl, hc]
  simp only [Pipeline.lookup, hs]

theorem DrawDirLight_found (env : Env) (pass : Pass) (node : SceneNode) (p : Pipeline)
    (light : Light) (cam : CameraNode) (shader : Shader)
    (hl : node.light = some light) (hc : p.m_CurrentCamera = some cam)
    (hs : env.GetShaderByName
      (dirLightShaderName light.castShadows p.CASCADED_SHADOW_MAP) = some shader) :
    ∃ q, DrawDirLight env pass node p = some q ∧ q.gpu = p.gpu ++ emitted p q ∧
      drawCalls (emitted p q) = 1 ∧ q.stats = lightDrawn p.stats ∧
      q.lookups = p.lookups ++ [dirLightShaderName light.castShadows p.CASCADED_SHADOW_MAP] ∧
      q.log = p.log ∧
      sameFields p q ∧ poolOutstanding (emitted p q) = 0 ∧ poolPeak 0 (emitted p q) ≤ 1 ∧
      (∀ flag, srgbAfter flag (emitted p q) = flag ∧
        ∀ b ∈ drawFlags flag (emitted p q), b = flag) := by
  unfold DrawDirLight
  simp only [hl, hc]
  simp only [Pipeline.lookup, hs]
  cases hcast : light.castShadows <;>
  cases hcsm : p.CASCADED_SHADOW_MAP <;>
  cases htex : (env.DrawCascadedShadowMap pass node).1 <;>
  cases htex2 : (env.DrawDirLightShadowMap pass node).1 <;>
    simp [emitted, Pipeline.bindPassTextures_eq, Pipeline.emits, Pipeline.emit,
      Pipeline.IncreaseDrawCall, Pipeline.IncreaseLightCount, htex, htex2, hcsm, drawCalls_append,
      drawCalls, Event.isDraw, List.countP_cons, lightDrawn, sameFields, hc, srgbAfter_append,
      drawFlags_append, srgbAfter, drawFlags, poolOutstanding_append, poolOutstanding_cons,
      poolChange, poolPeak_append, poolPeak]

theorem sameFields_refl (p : Pipeline) : sameFields p p := by
  simp [sameFields]

theorem sameFields_trans {p q r : Pipeline} (h1 : sameFields p q) (h2 : sameFields q r) :
    sameFields p r := by
  obtain ⟨a1, a2, a3, a4, a5, a6, a7, a8⟩ := h1
  obtain ⟨b1, b2, b3, b4, b5, b6, b7, b8⟩ := h2
  exact ⟨b1.trans a1, b2.trans a2, b3.trans a3, b4.trans a4, b5.trans a5, b6.trans a6,
    b7.trans a7, b8.trans a8⟩

theorem drawLight_missing (env : Env) (pass : Pass) (node : SceneNode) (p : Pipeline)
    (light : Light) (cam : CameraNode)
    (hl : node.light = some light) (hc : p.m_CurrentCamera = some cam)
    (hs : env.GetShaderByName (selectedShaderName light p.CASCADED_SHADOW_MAP) = none) :
    drawLight env pass light node p =
      some ((p.lookup (selectedShaderName light p.CASCADED_SHADOW_MAP)).warn
        ("Shader for light " ++ node.name ++ " not found!")) := by
  unfold drawLight
  unfold selectedShaderName at *
  by_cases h1 : light.type = LightType.DIRECTIONAL
  · simp only [h1, if_true] at hs ⊢
    exact DrawDirLight_missing env pass node p light cam hl hc hs
  · by_cases h2 : light.type = LightType.POINT
    · simp only [h2, if_true, if_false, reduceCtorEq] at hs ⊢
      exact DrawPointLight_missing env pass node p light cam hl hc hs
    · simp only [h1, h2, if_false] at hs ⊢
      exact DrawSpotLight_missing env pass node p light cam hl hc hs

theorem drawLight_found (env : Env) (pass : Pass) (node : SceneNode) (p : Pipeline)
    (light : Light) (cam : CameraNode) (shader : Shader)
    (hl : node.light = some light) (hc : p.m_CurrentCamera = some cam)
    (hs : env.GetShaderByName (selectedShaderName light p.CASCADED_SHADOW_MAP) = some shader) :
    ∃ q, drawLight env pass light node p = some q ∧ q.gpu = p.gpu ++ emitted p q ∧
      drawCalls (emitted p q) = 1 ∧ q.stats = lightDrawn p.stats ∧
      q.lookups = p.lookups ++ [selectedShaderName light p.CASCADED_SHADOW_MAP] ∧
      q.log = p.log ∧
      sameFields p q ∧ poolOutstanding (emitted p q) = 0 ∧ poolPeak 0 (emitted p q) ≤ 1 ∧
      (∀ flag, srgbAfter flag (emitted p q) = flag ∧
        ∀ b ∈ drawFlags flag (emitted p q), b = flag) := by
  unfold drawLight
  unfold selectedShaderName at *
  by_cases h1 : light.type = LightType.DIRECTIONAL
  · simp only [h1, if_true] at hs ⊢
    exact DrawDirLight_found env pass node p light cam shader hl hc hs
  · by_cases h2 : light.type = LightType.POINT
    · simp only [h2, if_true, if_false, reduceCtorEq] at hs ⊢
      exact DrawPointLight_found env pass node p light cam shader hl hc hs
    · simp only [h1, h2, if_false] at hs ⊢
      exact DrawSpotLight_found env pass node p light cam shader hl hc hs

/-- What drawing the light nodes of a query does, whatever shaders are
registered. -/
theorem drawLights_spec (env : Env) (pass : Pass) (cam : CameraNode) (nodes : List SceneNode) :
    ∀ p : Pipeline, p.m_CurrentCamera = some cam →
    ∃ q, drawLights env pass nodes p = some q ∧ q.gpu = p.gpu ++ emitted p q ∧
      drawCalls (emitted p q) = nodes.countP (shaderFound env p.CASCADED_SHADOW_MAP) ∧
      q.stats = lightsDrawn (nodes.countP (shaderFound env p.CASCADED_SHADOW_MAP)) p.stats ∧
      sameFields p q ∧ poolOutstanding (emitted p q) = 0 ∧ poolPeak 0 (emitted p q) ≤ 1 ∧
      (∀ flag, srgbAfter flag (emitted p q) = flag ∧
        ∀ b ∈ drawFlags flag (emitted p q), b = flag) := by
  induction nodes with
  | nil =>
    intro p _
    refine ⟨p, rfl, ?_, ?_, ?_, sameFields_refl p, ?_, ?_, ?_⟩ <;>
      simp [emitted_self, drawCalls, lightsDrawn, poolPeak, srgbAfter, drawFlags]
  | cons node rest ih =>
    intro p hc
    cases hl : node.light with
    | none =>
      obtain ⟨q, hq, hrest⟩ := ih p hc
      refine ⟨q, ?_, ?_⟩
      · simp [drawLights, hl, hq]
      · simpa [List.countP_cons, shaderFound, hl] using hrest
    | some light =>
      cases hs : env.GetShaderByName (selectedShaderName light p.CASCADED_SHADOW_MAP) with
      | none =>
        have hm := drawLight_missing env pass node p light cam hl hc hs
        have hc1 : ((p.lookup (selectedShaderName light p.CASCADED_SHADOW_MAP)).warn
            ("Shader for light " ++ node.name ++ " not found!")).m_CurrentCamera = some cam := hc
        obtain ⟨q, hq, hgpu, hdraw, hstats, hsame, hpool, hpeak, hsrgb⟩ := ih _ hc1
        refine ⟨q, ?_, ?_, ?_, ?_, ?_, ?_, ?_, ?_⟩
        · simp [drawLights, hl, hm, hq]
        · exact hgpu
        · simpa [List.countP_cons, shaderFound, hl, hs] using hdraw
        · simpa [List.countP_cons, shaderFound, hl, hs] using hstats
        · exact hsame
        · exact hpool
        · exact hpeak
        · exact hsrgb
      | some shader =>
        obtain ⟨q1, hq1, hgpu1, hdraw1, hstats1, _, _, hsame1, hpool1, hpeak1, hsrgb1⟩ :=
          drawLight_found env pass node p light cam shader hl hc hs
        have hc1 : q1.m_CurrentCamera = some cam := hsame1.1.trans hc
        have hcsm : q1.CASCADED_SHADOW_MAP = p.CASCADED_SHADOW_MAP := hsame1.2.2.2.2.1
        obtain ⟨q, hq, hgpu, hdraw, hstats, hsame, hpool, hpeak, hsrgb⟩ := ih q1 hc1
        obtain ⟨hgpu2, hem⟩ := emitted_trans p q1 q hgpu1 hgpu
        rw [hcsm] at hdraw hstats
        refine ⟨q, ?_, hgpu2, ?_, ?_, sameFields_trans hsame1 hsame, ?_, ?_, ?_⟩
        · simp [drawLights, hl, hq1, hq]
        · rw [hem, drawCalls_append, hdraw1, hdraw]
          simp [List.countP_cons, shaderFound, hl, hs, Nat.add_comm]
        · rw [hstats, hstats1]
          simp [List.countP_cons, shaderFound, hl, hs, lightsDrawn, lightDrawn, Nat.add_comm,
            Nat.add_assoc]
        · rw [hem, poolOutstanding_append, hpool1, hpool]
          rfl
        · rw [hem, poolPeak_append, hpool1]
          simpa using ⟨hpeak1, hpeak⟩
        · intro flag
          rw [hem, srgbAfter_append, drawFlags_append, (hsrgb1 flag).1]
          refine ⟨(hsrgb flag).1, ?_⟩
          intro b hb
          rcases List.mem_append.mp hb with h | h
          · exact (hsrgb1 flag).2 b h
          · exact (hsrgb flag).2 b h

end Fury.PrelightPipeline

/-! ## The unit procedures of `engine/Fury/PrelightPipeline.cpp` -/

namespace Fury.PrelightPipeline

theorem DrawUnit_missing (env : Env) (pass : Pass) (unit : RenderUnit) (p : Pipeline)
    (hs : unitShader env pass unit = none) :
    DrawUnit env pass unit p =
      p.warn ("Failed to draw " ++ unit.node.name ++ ", shader not found!") := by
  unfold DrawUnit
  simp only [hs]

/-- The current material, mesh and shader after a unit was drawn. -/
theorem DrawUnit_found_current (env : Env) (pass : Pass) (unit : RenderUnit) (p : Pipeline)
    (shader : Shader) (hs : unitShader env pass unit = some shader) :
    (DrawUnit env pass unit p).m_CurrentMateral = some unit.material ∧
    (DrawUnit env pass unit p).m_CurrentMesh = some unit.mesh ∧
    (DrawUnit env pass unit p).m_CurrentShader = some shader ∧
    (DrawUnit env pass unit p).m_CurrentCamera = p.m_CurrentCamera := by
  unfold DrawUnit
  simp only [hs]
  by_cases h1 : some unit.material = p.m_CurrentMateral <;>
  by_cases h2 : some unit.mesh = p.m_CurrentMesh <;>
  by_cases h3 : some shader = p.m_CurrentShader <;>
  by_cases h4 : unit.mesh.GetSubMeshCount > 0 <;>
  cases h5 : unit.mesh.IsSkinnedMesh <;>
  simp [h1, h2, h3, h4, Pipeline.bindPassTextures_eq, Pipeline.emits, Pipeline.emit,
    Pipeline.IncreaseDrawCall, Pipeline.IncreaseTriangleCount, Pipeline.IncreaseMeshCount,
    Pipeline.IncreaseSkinnedMeshCount]

end Fury.PrelightPipeline

theorem drawnWorld_passTextures_append (cur : Option Matrix4) (shader : Shader)
    (ts : List Texture) (rest : List Event) :
    drawnWorld cur (ts.map (fun ptr => Event.BindTexture shader ptr.name ptr) ++ rest) =
      drawnWorld cur rest := by
  induction ts with
  | nil => rfl
  | cons t ts ih => simpa [drawnWorld] using ih

theorem sameConfig_refl (p : Pipeline) : sameConfig p p := by
  simp [sameConfig]

theorem sameConfig_trans {p q r : Pipeline} (h1 : sameConfig p q) (h2 : sameConfig q r) :
    sameConfig p r := by
  obtain ⟨a1, a2, a3, a4, a5⟩ := h1
  obtain ⟨b1, b2, b3, b4, b5⟩ := h2
  exact ⟨b1.trans a1, b2.trans a2, b3.trans a3, b4.trans a4, b5.trans a5⟩

theorem sameConfig_of_sameFields {p q : Pipeline} (h : sameFields p q) : sameConfig p q :=
  ⟨h.1, h.2.2.2.2.1, h.2.2.2.2.2.1, h.2.2.2.2.2.2.1, h.2.2.2.2.2.2.2⟩

namespace Fury.PrelightPipeline

/-- What drawing one unit whose shader is found appends to the command stream. -/
theorem DrawUnit_found_stream (env : Env) (pass : Pass) (unit : RenderUnit) (p : Pipeline)
    (shader : Shader) (hs : unitShader env pass unit = some shader) :
    (DrawUnit env pass unit p).gpu = p.gpu ++ emitted p (DrawUnit env pass unit p) ∧
    sameConfig p (DrawUnit env pass unit p) ∧
    drawCalls (emitted p (DrawUnit env pass unit p)) = 1 ∧
    (∀ flag, srgbAfter flag (emitted p (DrawUnit env pass unit p)) = flag ∧
      ∀ b ∈ drawFlags flag (emitted p (DrawUnit env pass unit p)), b = flag) ∧
    (∀ cur rest, drawnWorld cur (emitted p (DrawUnit env pass unit p) ++ rest) =
      some unit.node.worldMatrix :: drawnWorld (some unit.node.worldMatrix) rest) := by
  unfold DrawUnit
  simp only [hs]
  by_cases h1 : some unit.material = p.m_CurrentMateral <;>
  by_cases h2 : some unit.mesh = p.m_CurrentMesh <;>
  by_cases h3 : some shader = p.m_CurrentShader <;>
  by_cases h4 : unit.mesh.GetSubMeshCount > 0 <;>
  cases h5 : unit.mesh.IsSkinnedMesh <;>
  simp [h1, h2, h3, h4, Pipeline.bindPassTextures_eq, Pipeline.emits, Pipeline.emit,
    Pipeline.IncreaseDrawCall, Pipeline.IncreaseTriangleCount, Pipeline.IncreaseMeshCount,
    Pipeline.IncreaseSkinnedMeshCount, emitted, sameConfig, drawCalls_append, drawCalls,
    Event.isDraw, srgbAfter_append, drawFlags_append, srgbAfter, drawFlags, drawnWorld,
    drawnWorld_passTextures_append]

/-- What drawing a list of units appends to the command stream. -/
theorem drawUnits_stream (env : Env) (pass : Pass) (units : List RenderUnit) :
    ∀ p : Pipeline,
    (drawUnits env pass units p).gpu = p.gpu ++ emitted p (drawUnits env pass units p) ∧
    sameConfig p (drawUnits env pass units p) ∧
    drawCalls (emitted p (drawUnits env pass units p)) =
      (units.filter (fun u => (unitShader env pass u).isSome)).length ∧
    (∀ flag, srgbAfter flag (emitted p (drawUnits env pass units p)) = flag ∧
      ∀ b ∈ drawFlags flag (emitted p (drawUnits env pass units p)), b = flag) ∧
    (∀ cur rest, ∃ cur', drawnWorld cur (emitted p (drawUnits env pass units p) ++ rest) =
      (units.filter (fun u => (unitShader env pass u).isSome)).map
          (fun u => some u.node.worldMatrix) ++ drawnWorld cur' rest) := by
  induction units with
  | nil =>
    intro p
    have he : emitted p (drawUnits env pass [] p) = [] := emitted_self p
    rw [he]
    refine ⟨by simp [drawUnits], sameConfig_refl p, rfl, ?_, ?_⟩
    · intro flag
      simp [srgbAfter, drawFlags]
    · intro cur rest
      exact ⟨cur, rfl⟩
  | cons unit rest ih =>
    intro p
    have hstep : drawUnits env pass (unit :: rest) p =
        drawUnits env pass rest (DrawUnit env pass unit p) := rfl
    rw [hstep]
    obtain ⟨hgpu, hcfg, hdraw, hsrgb, hworld⟩ := ih (DrawUnit env pass unit p)
    cases hs : unitShader env pass unit with
    | none =>
      have hm := DrawUnit_missing env pass unit p hs
      have hgpu0 : (DrawUnit env pass unit p).gpu = p.gpu := by rw [hm]; rfl
      have hem : emitted p (drawUnits env pass rest (DrawUnit env pass unit p)) =
          emitted (DrawUnit env pass unit p)
            (drawUnits env pass rest (DrawUnit env pass unit p)) := by
        simp [emitted, hgpu0]
      have hcfg0 : sameConfig p (DrawUnit env pass unit p) := by
        rw [hm]
        simp [sameConfig, Pipeline.warn]
      rw [hem]
      refine ⟨?_, sameConfig_trans hcfg0 hcfg, ?_, hsrgb, ?_⟩
      · rw [← hgpu0]
        exact hgpu
      · simpa [List.filter_cons, hs] using hdraw
      · simpa [List.filter_cons, hs] using hworld
    | some shader =>
      obtain ⟨hgpu1, hcfg1, hdraw1, hsrgb1, hworld1⟩ :=
        DrawUnit_found_stream env pass unit p shader hs
      obtain ⟨hgpu2, hem⟩ := emitted_trans p _ _ hgpu1 hgpu
      rw [hem]
      refine ⟨hem ▸ hgpu2, sameConfig_trans hcfg1 hcfg, ?_, ?_, ?_⟩
      · rw [drawCalls_append, hdraw1, hdraw]
        simp [List.filter_cons, hs, Nat.add_comm]
      · intro flag
        rw [srgbAfter_append, drawFlags_append, (hsrgb1 flag).1]
        refine ⟨(hsrgb flag).1, ?_⟩
        intro b hb
        rcases List.mem_append.mp hb with h | h
        · exact (hsrgb1 flag).2 b h
        · exact (hsrgb flag).2 b h
      · intro cur tail
        obtain ⟨cur', hc'⟩ := hworld (some unit.node.worldMatrix) tail
        refine ⟨cur', ?_⟩
        rw [List.append_assoc, hworld1, hc']
        simp [List.filter_cons, hs]

end Fury.PrelightPipeline

/-! ## The pass loop of `engine/Fury/PrelightPipeline.cpp` -/

namespace Fury.PrelightPipeline

theorem passEnter_facts (passCount i : Nat) (pass : Pass) (p : Pipeline) :
    (passEnter passCount i pass p).gpu = p.gpu ++ enterEvents passCount i ∧
    sameConfig p (passEnter passCount i pass p) ∧
    (passEnter passCount i pass p).stats = p.stats ∧
    (passEnter passCount i pass p).m_CurrentShader = pass.firstShader := by
  unfold passEnter enterEvents
  by_cases h : i = passCount - 1 <;> simp [h, Pipeline.emit, sameConfig]

theorem passLeave_facts (passCount i : Nat) (p : Pipeline) :
    (passLeave passCount i p).gpu = p.gpu ++ leaveEvents passCount i p.m_CurrentShader ∧
    sameConfig p (passLeave passCount i p) ∧
    (passLeave passCount i p).stats = p.stats ∧
    (passLeave passCount i p).m_CurrentShader = none ∧
    (passLeave passCount i p).m_CurrentMateral = none ∧
    (passLeave passCount i p).m_CurrentMesh = none := by
  unfold passLeave leaveEvents
  by_cases h : i = passCount - 1 <;> cases hs : p.m_CurrentShader <;>
    simp [h, hs, Pipeline.emit, sameConfig]

/-- The body of the pass loop, by draw mode, for a pipeline with a camera. -/
theorem passBody_eq (env : Env) (query : RenderQuery) (passCount i : Nat) (pass : Pass)
    (p : Pipeline) (cam : CameraNode) (hc : p.m_CurrentCamera = some cam) :
    passBody env query passCount i pass p =
      match pass.drawMode with
      | DrawMode.OPAQUE =>
        some (passLeave passCount i ((drawUnits env pass query.opaqueUnits
          ((passEnter passCount i pass p).emit (Event.PassBind pass.name none))).emit
            (Event.PassUnBind pass.name)))
      | DrawMode.TRANSPARENT =>
        some (passLeave passCount i ((drawUnits env pass query.transparentUnits
          ((passEnter passCount i pass p).emit (Event.PassBind pass.name none))).emit
            (Event.PassUnBind pass.name)))
      | DrawMode.QUAD =>
        some (passLeave passCount i ((DrawQuad env pass
          ((passEnter passCount i pass p).emit (Event.PassBind pass.name none))).emit
            (Event.PassUnBind pass.name)))
      | DrawMode.LIGHT =>
        (drawLights env pass query.lightNodes
          ((passEnter passCount i pass p).emit (Event.PassBind pass.name (some true)))).map
            (passLeave passCount i) := by
  unfold passBody passEnter passLeave
  simp only [hc]
  cases pass.drawMode
  · by_cases h : i = passCount - 1 <;> simp [h]
  · by_cases h : i = passCount - 1 <;> simp [h]
  · by_cases h : i = passCount - 1 <;> simp [h]
  · by_cases h : i = passCount - 1
    · simp only [h, if_true]
      cases drawLights env pass query.lightNodes _ <;> rfl
    · simp only [h, if_false]
      cases drawLights env pass query.lightNodes _ <;> rfl

end Fury.PrelightPipeline

namespace Fury.PrelightPipeline

/-- The command stream of an OPAQUE or TRANSPARENT pass over `units`. -/
theorem unit_pass_gpu (env : Env) (pass : Pass) (units : List RenderUnit)
    (passCount i : Nat) (p s1 d : Pipeline)
    (hs1 : s1 = (passEnter passCount i pass p).emit (Event.PassBind pass.name none))
    (hd : d = drawUnits env pass units s1) :
    (passLeave passCount i (d.emit (Event.PassUnBind pass.name))).gpu =
      p.gpu ++ (enterEvents passCount i ++ Event.PassBind pass.name none ::
        (emitted s1 d ++ Event.PassUnBind pass.name ::
          leaveEvents passCount i d.m_CurrentShader)) := by
  have h1 := (passLeave_facts passCount i (d.emit (Event.PassUnBind pass.name))).1
  have h2 := (drawUnits_stream env pass units s1).1
  have h3 := (passEnter_facts passCount i pass p).1
  rw [h1]
  rw [← hd] at h2
  have h4 : s1.gpu = p.gpu ++ (enterEvents passCount i ++ [Event.PassBind pass.name none]) := by
    rw [hs1, Pipeline.emit_gpu, h3, List.append_assoc]
  have h5 : (d.emit (Event.PassUnBind pass.name)).m_CurrentShader = d.m_CurrentShader := rfl
  rw [h5, Pipeline.emit_gpu]
  generalize emitted s1 d = es at h2 ⊢
  rw [h2, h4]
  simp [List.append_assoc]

theorem drawnWorld_enter (cur : Option Matrix4) (passCount i : Nat) (rest : List Event) :
    drawnWorld cur (enterEvents passCount i ++ rest) = drawnWorld cur rest := by
  unfold enterEvents
  by_cases h : i = passCount - 1 <;> simp [h, drawnWorld]

theorem drawnWorld_leave (cur : Option Matrix4) (passCount i : Nat) (shader : Option Shader) :
    drawnWorld cur (leaveEvents passCount i shader) = [] := by
  unfold leaveEvents
  by_cases h : i = passCount - 1 <;> cases shader <;> simp [h, drawnWorld]

theorem drawCalls_enter (passCount i : Nat) : drawCalls (enterEvents passCount i) = 0 := by
  unfold enterEvents
  by_cases h : i = passCount - 1 <;> simp [h, drawCalls, Event.isDraw]

theorem drawCalls_leave (passCount i : Nat) (shader : Option Shader) :
    drawCalls (leaveEvents passCount i shader) = 0 := by
  unfold leaveEvents
  by_cases h : i = passCount - 1 <;> cases shader <;> simp [h, drawCalls, Event.isDraw]

theorem drawCalls_cons (e : Event) (es : List Event) :
    drawCalls (e :: es) = (if e.isDraw then 1 else 0) + drawCalls es := by
  unfold drawCalls
  rw [List.countP_cons, Nat.add_comm]

end Fury.PrelightPipeline

/-! ## The sRGB flag -/

theorem srgbQuiet_nil : srgbQuiet [] := by
  intro flag
  simp [srgbAfter, drawFlags]

theorem srgbQuiet_append {a b : List Event} (ha : srgbQuiet a) (hb : srgbQuiet b) :
    srgbQuiet (a ++ b) := by
  intro flag
  rw [srgbAfter_append, drawFlags_append, (ha flag).1]
  refine ⟨(hb flag).1, ?_⟩
  intro x hx
  rcases List.mem_append.mp hx with h | h
  · exact (ha flag).2 x h
  · exact (hb flag).2 x h

namespace Fury.PrelightPipeline

/-- What `DrawQuad` appends leaves the flag alone. -/
theorem DrawQuad_stream (env : Env) (pass : Pass) (p : Pipeline) :
    (DrawQuad env pass p).gpu = p.gpu ++ emitted p (DrawQuad env pass p) ∧
    sameConfig p (DrawQuad env pass p) ∧ srgbQuiet (emitted p (DrawQuad env pass p)) := by
  unfold DrawQuad srgbQuiet
  cases hs : p.m_CurrentShader <;>
    simp [hs, Pipeline.warn, Pipeline.bindPassTextures_eq, Pipeline.emits, Pipeline.emit,
      Pipeline.IncreaseDrawCall, Pipeline.IncreaseTriangleCount, emitted, sameConfig,
      srgbAfter_append, drawFlags_append, srgbAfter, drawFlags]

/-- Every iteration of the pass loop appends the calls of `passEnter`, a body
that leaves the flag alone, and the calls of `passLeave`. -/
theorem passBody_block (env : Env) (query : RenderQuery) (passCount i : Nat) (pass : Pass)
    (p : Pipeline) (cam : CameraNode) (hc : p.m_CurrentCamera = some cam) :
    ∃ q body shader, passBody env query passCount i pass p = some q ∧
      q.gpu = p.gpu ++ (enterEvents passCount i ++ (body ++ leaveEvents passCount i shader)) ∧
      sameConfig p q ∧ srgbQuiet body := by
  have hbody := passBody_eq env query passCount i pass p cam hc
  obtain ⟨he1, he2, _, _⟩ := passEnter_facts passCount i pass p
  have hquiet1 : ∀ e : Event, e ≠ Event.glEnable GLCap.FRAMEBUFFER_SRGB →
      e ≠ Event.glDisable GLCap.FRAMEBUFFER_SRGB → e.isDraw = false →
      (∀ k a b c, e ≠ Event.ShadowMap k a b c) → srgbQuiet [e] := by
    intro e h1 h2 h3 h4 flag
    cases e with
    | glEnable cap => cases cap <;> simp_all [srgbAfter, drawFlags]
    | glDisable cap => cases cap <;> simp_all [srgbAfter, drawFlags]
    | glDrawElements n => simp [Event.isDraw] at h3
    | ShadowMap k a b c => exact absurd rfl (h4 k a b c)
    | _ => simp [srgbAfter, drawFlags]
  have hbind : ∀ c, srgbQuiet [Event.PassBind pass.name c] := fun c =>
    hquiet1 _ (by simp) (by simp) rfl (by simp)
  have hunbind : srgbQuiet [Event.PassUnBind pass.name] :=
    hquiet1 _ (by simp) (by simp) rfl (by simp)
  have units : ∀ us : List RenderUnit,
      ∃ q body shader, some (passLeave passCount i ((drawUnits env pass us
          ((passEnter passCount i pass p).emit (Event.PassBind pass.name none))).emit
            (Event.PassUnBind pass.name))) = some q ∧
        q.gpu = p.gpu ++ (enterEvents passCount i ++
          (body ++ leaveEvents passCount i shader)) ∧
        sameConfig p q ∧ srgbQuiet body := by
    intro us
    obtain ⟨s1, hs1⟩ : ∃ s1, s1 =
      (passEnter passCount i pass p).emit (Event.PassBind pass.name none) := ⟨_, rfl⟩
    obtain ⟨d, hd⟩ : ∃ d, d = drawUnits env pass us s1 := ⟨_, rfl⟩
    obtain ⟨_, hcfg, _, hq, _⟩ := drawUnits_stream env pass us s1
    have hgpu := unit_pass_gpu env pass us passCount i p s1 d hs1 hd
    have hcfg1 : sameConfig p s1 := by
      rw [hs1]
      exact he2
    rw [← hd] at hcfg hq
    rw [← hs1, ← hd]
    refine ⟨_, [Event.PassBind pass.name none] ++ (emitted s1 d ++ [Event.PassUnBind pass.name]),
      d.m_CurrentShader, rfl, ?_, ?_, ?_⟩
    · rw [hgpu]
      simp [List.append_assoc]
    · exact sameConfig_trans (sameConfig_trans hcfg1 hcfg)
        (passLeave_facts passCount i (d.emit (Event.PassUnBind pass.name))).2.1
    · exact srgbQuiet_append (hbind none) (srgbQuiet_append hq hunbind)
  cases hmode : pass.drawMode with
  | OPAQUE =>
    simp only [hmode] at hbody
    rw [hbody]
    exact units query.opaqueUnits
  | TRANSPARENT =>
    simp only [hmode] at hbody
    rw [hbody]
    exact units query.transparentUnits
  | QUAD =>
    simp only [hmode] at hbody
    rw [hbody]
    obtain ⟨s1, hs1⟩ : ∃ s1, s1 =
      (passEnter passCount i pass p).emit (Event.PassBind pass.name none) := ⟨_, rfl⟩
    obtain ⟨d, hd⟩ : ∃ d, d = DrawQuad env pass s1 := ⟨_, rfl⟩
    obtain ⟨hg, hcfg, hq⟩ := DrawQuad_stream env pass s1
    rw [← hd] at hg hcfg hq
    obtain ⟨hl1, hl2, _⟩ := passLeave_facts passCount i (d.emit (Event.PassUnBind pass.name))
    have hcfg1 : sameConfig p s1 := by
      rw [hs1]
      exact he2
    have hs1g : s1.gpu = p.gpu ++ (enterEvents passCount i ++ [Event.PassBind pass.name none]) := by
      rw [hs1, Pipeline.emit_gpu, he1, List.append_assoc]
    rw [← hs1, ← hd]
    refine ⟨_, [Event.PassBind pass.name none] ++ (emitted s1 d ++ [Event.PassUnBind pass.name]),
      d.m_CurrentShader, rfl, ?_, ?_, ?_⟩
    · rw [hl1, Pipeline.emit_gpu]
      generalize emitted s1 d = es at hg ⊢
      rw [hg, hs1g]
      have h5 : (d.emit (Event.PassUnBind pass.name)).m_CurrentShader = d.m_CurrentShader := rfl
      rw [h5]
      simp [List.append_assoc]
    · exact sameConfig_trans (sameConfig_trans hcfg1 hcfg) hl2
    · exact srgbQuiet_append (hbind none) (srgbQuiet_append hq hunbind)
  | LIGHT =>
    simp only [hmode] at hbody
    rw [hbody]
    obtain ⟨s1, hs1⟩ : ∃ s1, s1 =
      (passEnter passCount i pass p).emit (Event.PassBind pass.name (some true)) := ⟨_, rfl⟩
    have hcfg1 : sameConfig p s1 := by
      rw [hs1]
      exact he2
    have hs1g : s1.gpu =
        p.gpu ++ (enterEvents passCount i ++ [Event.PassBind pass.name (some true)]) := by
      rw [hs1, Pipeline.emit_gpu, he1, List.append_assoc]
    obtain ⟨q1, hq1, hg, _, _, hsame, _, _, hq⟩ := drawLights_spec env pass cam
      query.lightNodes s1 (hcfg1.1.trans hc)
    obtain ⟨hl1, hl2, _⟩ := passLeave_facts passCount i q1
    rw [← hs1, hq1]
    refine ⟨_, [Event.PassBind pass.name (some true)] ++ emitted s1 q1, q1.m_CurrentShader,
      rfl, ?_, ?_, ?_⟩
    · rw [hl1]
      generalize emitted s1 q1 = es at hg ⊢
      rw [hg, hs1g]
      simp [List.append_assoc]
    · exact sameConfig_trans (sameConfig_trans hcfg1 (sameConfig_of_sameFields hsame)) hl2
    · exact srgbQuiet_append (hbind (some true)) hq

end Fury.PrelightPipeline

namespace Fury.PrelightPipeline

theorem srgbQuiet_leave (passCount i : Nat) (shader : Option Shader) (h : i ≠ passCount - 1) :
    srgbQuiet (leaveEvents passCount i shader) := by
  intro flag
  unfold leaveEvents
  cases shader <;> simp [h, srgbAfter, drawFlags]

/-- The flag over one iteration of the pass loop: left alone by every pass but
the last, on at every drawing call of the last pass and off after it. -/
theorem passBody_srgb (env : Env) (query : RenderQuery) (passCount i : Nat) (pass : Pass)
    (p : Pipeline) (cam : CameraNode) (hc : p.m_CurrentCamera = some cam) :
    ∃ q, passBody env query passCount i pass p = some q ∧ q.gpu = p.gpu ++ emitted p q ∧
      sameConfig p q ∧
      (i ≠ passCount - 1 → srgbQuiet (emitted p q)) ∧
      (i = passCount - 1 → ∀ flag, srgbAfter flag (emitted p q) = false ∧
        ∀ b ∈ drawFlags flag (emitted p q), b = true) ∧
      (i = passCount - 1 → Event.glEnable GLCap.FRAMEBUFFER_SRGB ∈ emitted p q ∧
        Event.glDisable GLCap.FRAMEBUFFER_SRGB ∈ emitted p q) := by
  obtain ⟨q, body, shader, hq, hgpu, hcfg, hquiet⟩ :=
    passBody_block env query passCount i pass p cam hc
  have hem := emitted_append p q _ hgpu
  refine ⟨q, hq, by rw [hem]; exact hgpu, hcfg, ?_, ?_, ?_⟩
  · intro hne
    rw [hem]
    have h1 : enterEvents passCount i = [] := by simp [enterEvents, hne]
    rw [h1, List.nil_append]
    exact srgbQuiet_append hquiet (srgbQuiet_leave passCount i shader hne)
  · intro heq flag
    rw [hem]
    have h1 : enterEvents passCount i = [Event.glEnable GLCap.FRAMEBUFFER_SRGB] := by
      simp [enterEvents, heq]
    have h2 : ∀ f, srgbAfter f (leaveEvents passCount i shader) = false ∧
        drawFlags f (leaveEvents passCount i shader) = [] := by
      intro f
      unfold leaveEvents
      cases shader <;> simp [heq, srgbAfter, drawFlags]
    rw [h1]
    have h3 : srgbAfter flag ([Event.glEnable GLCap.FRAMEBUFFER_SRGB] ++
        (body ++ leaveEvents passCount i shader)) =
        srgbAfter true (body ++ leaveEvents passCount i shader) := rfl
    have h4 : drawFlags flag ([Event.glEnable GLCap.FRAMEBUFFER_SRGB] ++
        (body ++ leaveEvents passCount i shader)) =
        drawFlags true (body ++ leaveEvents passCount i shader) := rfl
    rw [h3, h4, srgbAfter_append, drawFlags_append, (h2 _).1, (h2 _).2, List.append_nil]
    exact ⟨rfl, (hquiet true).2⟩
  · intro heq
    rw [hem]
    unfold enterEvents leaveEvents
    cases shader <;> simp [heq]

theorem passLoop_append (env : Env) (query : RenderQuery) (passCount : Nat)
    (a b : List Pass) : ∀ (i : Nat) (p : Pipeline),
    passLoop env query passCount i (a ++ b) p =
      match passLoop env query passCount i a p with
      | none => none
      | some q => passLoop env query passCount (i + a.length) b q := by
  induction a with
  | nil =>
    intro i p
    simp [passLoop]
  | cons pass rest ih =>
    intro i p
    simp only [List.cons_append, passLoop, List.length_cons]
    cases passBody env query passCount i pass p with
    | none => rfl
    | some q =>
      have h : i + 1 + rest.length = i + (rest.length + 1) := by omega
      have h2 := ih (i + 1) q
      rw [h] at h2
      exact h2

/-- The pass loop from pass number `i` on, for a pipeline with a camera: it
returns, and the flag is left alone as long as the last pass is not reached,
and off after the last pass. -/
theorem passLoop_run (env : Env) (query : RenderQuery) (passCount : Nat) (cam : CameraNode)
    (passes : List Pass) : ∀ (i : Nat) (p : Pipeline), p.m_CurrentCamera = some cam →
    ∃ q, passLoop env query passCount i passes p = some q ∧ q.gpu = p.gpu ++ emitted p q ∧
      sameConfig p q ∧
      (i + passes.length < passCount → srgbQuiet (emitted p q)) ∧
      (i + passes.length = passCount → passes ≠ [] →
        ∀ flag, srgbAfter flag (emitted p q) = false) := by
  induction passes with
  | nil =>
    intro i p _
    refine ⟨p, rfl, ?_, sameConfig_refl p, ?_, ?_⟩
    · rw [emitted_self, List.append_nil]
    · intro _
      rw [emitted_self]
      exact srgbQuiet_nil
    · intro _ h
      exact absurd rfl h
  | cons pass rest ih =>
    intro i p hc
    obtain ⟨q1, hq1, hgpu1, hcfg1, hne1, heq1, _⟩ :=
      passBody_srgb env query passCount i pass p cam hc
    obtain ⟨q, hq, hgpu, hcfg, hlt, heq⟩ := ih (i + 1) q1 (hcfg1.1.trans hc)
    obtain ⟨hgpu2, hem⟩ := emitted_trans p q1 q hgpu1 hgpu
    refine ⟨q, ?_, hgpu2, sameConfig_trans hcfg1 hcfg, ?_, ?_⟩
    · simp only [passLoop, hq1, hq]
    · intro h
      rw [hem]
      simp only [List.length_cons] at h
      exact srgbQuiet_append (hne1 (by omega)) (hlt (by omega))
    · intro h _ flag
      rw [hem, srgbAfter_append]
      simp only [List.length_cons] at h
      cases rest with
      | nil =>
        simp only [List.length_nil] at h
        have he : emitted q1 q = [] := by
          simp only [passLoop, Option.some.injEq] at hq
          rw [hq]
          exact emitted_self q
        rw [he]
        simp only [srgbAfter]
        exact (heq1 (by omega) flag).1
      | cons pass2 rest2 =>
        simp only [List.length_cons] at h
        exact heq (by simp only [List.length_cons]; omega) (by simp) _

end Fury.PrelightPipeline

/-! ## Shadow bindings and the sphere test -/

theorem shadowBindings_passTextures (shader : Shader) (ts : List Texture) :
    (ts.map (fun ptr => Event.BindTexture shader ptr.name ptr)).filter Event.isShadowBinding =
      (ts.filter (fun t => decide (t.name = "shadow_buffer"))).map
        (fun ptr => Event.BindTexture shader ptr.name ptr) := by
  induction ts with
  | nil => rfl
  | cons t ts ih =>
    by_cases h1 : t.name = "shadow_buffer"
    · have h3 : (Event.BindTexture shader t.name t).isShadowBinding = true := by
        simp [Event.isShadowBinding, h1]
      rw [List.map_cons, List.filter_cons, h3, List.filter_cons]
      simp [h1, ih]
    · have h3 : (Event.BindTexture shader t.name t).isShadowBinding = false := by
        simp [Event.isShadowBinding, h1]
      rw [List.map_cons, List.filter_cons, h3, List.filter_cons]
      simp [h1, ih]

/-- When the calls of a stretch that bind shadow data are binds of pass
textures, each of them binds a pass texture named `shadow_buffer`, and there
is none when the pass has no such texture. -/
theorem shadowBindings_only_pass (shader : Shader) (pass : Pass) (es : List Event)
    (h : es.filter Event.isShadowBinding =
      (pass.textures.filter (fun t => decide (t.name = "shadow_buffer"))).map
        (fun ptr => Event.BindTexture shader ptr.name ptr)) :
    (∀ e ∈ es, e.isShadowBinding = true →
      ∃ t ∈ pass.textures, t.name = "shadow_buffer" ∧ e = Event.BindTexture shader t.name t) ∧
    ((∀ t ∈ pass.textures, t.name ≠ "shadow_buffer") → ∀ e ∈ es, e.isShadowBinding = false) := by
  have h1 : ∀ e ∈ es, e.isShadowBinding = true →
      ∃ t ∈ pass.textures, t.name = "shadow_buffer" ∧ e = Event.BindTexture shader t.name t := by
    intro e he hb
    have hm : e ∈ es.filter Event.isShadowBinding := List.mem_filter.mpr ⟨he, hb⟩
    rw [h] at hm
    obtain ⟨t, ht, hte⟩ := List.mem_map.mp hm
    obtain ⟨ht1, ht2⟩ := List.mem_filter.mp ht
    exact ⟨t, ht1, of_decide_eq_true ht2, hte.symm⟩
  refine ⟨h1, ?_⟩
  intro hpass e he
  cases hb : e.isShadowBinding with
  | false => rfl
  | true =>
    obtain ⟨t, ht, hn, _⟩ := h1 e he hb
    exact absurd hn (hpass t ht)

namespace Fury.PrelightPipeline

/-- Every iteration of the pass loop ends with the current shader, material and
mesh null. -/
theorem passBody_reset (env : Env) (query : RenderQuery) (passCount i : Nat) (pass : Pass)
    (p : Pipeline) (cam : CameraNode) (hc : p.m_CurrentCamera = some cam) :
    ∀ q, passBody env query passCount i pass p = some q →
      q.m_CurrentShader = none ∧ q.m_CurrentMateral = none ∧ q.m_CurrentMesh = none := by
  intro q hq
  have hbody := passBody_eq env query passCount i pass p cam hc
  rw [hbody] at hq
  cases hmode : pass.drawMode <;> simp only [hmode] at hq
  · simp only [Option.some.injEq] at hq
    rw [← hq]
    exact (passLeave_facts passCount i _).2.2.2
  · simp only [Option.some.injEq] at hq
    rw [← hq]
    exact (passLeave_facts passCount i _).2.2.2
  · simp only [Option.some.injEq] at hq
    rw [← hq]
    exact (passLeave_facts passCount i _).2.2.2
  · cases hd : drawLights env pass query.lightNodes
      ((passEnter passCount i pass p).emit (Event.PassBind pass.name (some true))) with
    | none =>
      rw [hd] at hq
      exact Option.noConfusion hq
    | some d =>
      rw [hd] at hq
      simp only [Option.map_some', Option.some.injEq] at hq
      rw [← hq]
      exact (passLeave_facts passCount i d).2.2.2

end Fury.PrelightPipeline

/-! ## Bindings at the draw calls -/

theorem replayBindings_append (b : Bindings) (a c : List Event) :
    replayBindings b (a ++ c) = replayBindings (replayBindings b a) c := by
  simp [replayBindings]

namespace Src.PrelightPipeline

end Src.PrelightPipeline

namespace Fury.PrelightPipeline

end Fury.PrelightPipeline

theorem unitShader_same (env : Env) (pass : Pass) (unit : RenderUnit) :
    Src.PrelightPipeline.unitShader env pass unit =
      Fury.PrelightPipeline.unitShader env pass unit := rfl

namespace Src.PrelightPipeline

end Src.PrelightPipeline

namespace Fury.PrelightPipeline

end Fury.PrelightPipeline

/-! ## One query per camera name -/

namespace Src.PrelightPipeline

theorem buildQueries_pipeline (env : Env) :
    ∀ (passes : List Pass) (qs : List (String × RenderQuery)) (p : Pipeline),
    (buildQueries env passes qs p).2.m_SortedPasses = p.m_SortedPasses ∧
    (buildQueries env passes qs p).2.gpu = p.gpu := by
  intro passes
  induction passes with
  | nil =>
    intro qs p
    exact ⟨rfl, rfl⟩
  | cons pass rest ih =>
    intro qs p
    unfold buildQueries
    cases hc : pass.cameraNode with
    | none => exact ih _ _
    | some cam =>
      simp only []
      cases hl : qs.lookup cam.name with
      | some q0 => exact ih _ _
      | none => exact ih _ _

theorem Execute_eq (env : Env) (visit : List Pass) (p : Pipeline) :
    Execute env visit p =
      (passLoop env (frameQueries env visit p) (frameStart p).m_SortedPasses (afterQueries env visit p)).map
        frameFinish := by
  have h : Execute env visit p =
      match passLoop env (frameQueries env visit p) (afterQueries env visit p).m_SortedPasses
          (afterQueries env visit p) with
      | none => none
      | some q => some (frameFinish q) := rfl
  have hs : (afterQueries env visit p).m_SortedPasses = (frameStart p).m_SortedPasses :=
    (buildQueries_pipeline env _ _ _).1
  rw [h, hs]
  cases passLoop env (frameQueries env visit p) (frameStart p).m_SortedPasses (afterQueries env visit p) <;>
    rfl

theorem firstCameraNamed_cons_none (name : String) (pass : Pass) (rest : List Pass)
    (h : pass.cameraNode = none) :
    firstCameraNamed name (pass :: rest) = firstCameraNamed name rest := by
  simp [firstCameraNamed, passCameras, List.filterMap_cons, h]

theorem firstCameraNamed_cons_some (name : String) (pass : Pass) (rest : List Pass)
    (cam : CameraNode) (h : pass.cameraNode = some cam) :
    firstCameraNamed name (pass :: rest) =
      if cam.name = name then some cam else firstCameraNamed name rest := by
  by_cases hn : cam.name = name <;>
  simp [firstCameraNamed, passCameras, List.filterMap_cons, h, List.find?_cons, hn]

/-- The query stored under a name is one that was there before, else the query
of the first camera of that name among the passes. -/
theorem buildQueries_lookup (env : Env) (name : String) :
    ∀ (passes : List Pass) (qs : List (String × RenderQuery)) (p : Pipeline),
    (buildQueries env passes qs p).1.lookup name =
      (qs.lookup name).or ((firstCameraNamed name passes).map (cameraQuery env)) := by
  intro passes
  induction passes with
  | nil =>
    intro qs p
    simp [buildQueries, firstCameraNamed, passCameras]
  | cons pass rest ih =>
    intro qs p
    unfold buildQueries
    cases hc : pass.cameraNode with
    | none =>
      simp only []
      rw [ih, firstCameraNamed_cons_none name pass rest hc]
    | some cam =>
      simp only []
      rw [firstCameraNamed_cons_some name pass rest cam hc]
      cases hl : qs.lookup cam.name with
      | some q0 =>
        simp only []
        rw [ih]
        by_cases hn : cam.name = name
        · subst hn
          simp [hl]
        · simp [hn]
      | none =>
        simp only []
        rw [ih, List.lookup_append]
        by_cases hn : cam.name = name
        · subst hn
          simp [hl, List.lookup, cameraQuery]
        · have hb : (name == cam.name) = false := by
            simpa using fun h => hn h.symm
          simp [hn, hb, List.lookup]

theorem mem_keys_iff_lookup (qs : List (String × RenderQuery)) (name : String) :
    name ∈ qs.map Prod.fst ↔ qs.lookup name ≠ none := by
  rw [Ne, List.lookup_eq_none_iff]
  simp only [List.mem_map, bne_iff_ne, ne_eq]
  constructor
  · rintro ⟨a, ha, rfl⟩ h
    exact h a ha rfl
  · intro h
    by_contra hcon
    apply h
    intro a ha heq
    exact hcon ⟨a, ha, heq.symm⟩

theorem buildQueries_nodup (env : Env) :
    ∀ (passes : List Pass) (qs : List (String × RenderQuery)) (p : Pipeline),
    (qs.map Prod.fst).Nodup → ((buildQueries env passes qs p).1.map Prod.fst).Nodup := by
  intro passes
  induction passes with
  | nil =>
    intro qs p h
    simpa [buildQueries] using h
  | cons pass rest ih =>
    intro qs p h
    unfold buildQueries
    cases hc : pass.cameraNode with
    | none => exact ih _ _ h
    | some cam =>
      simp only []
      cases hl : qs.lookup cam.name with
      | some q0 => exact ih _ _ h
      | none =>
        simp only []
        apply ih
        rw [List.map_append, List.nodup_append]
        refine ⟨h, by simp, ?_⟩
        intro a ha hb
        simp only [List.map_cons, List.map_nil, List.mem_singleton] at hb
        subst hb
        exact (mem_keys_iff_lookup qs _).1 ha hl

theorem firstCameraNamed_some (name : String) (passes : List Pass) (cam : CameraNode)
    (h : firstCameraNamed name passes = some cam) :
    cam ∈ passCameras passes ∧ cam.name = name := by
  unfold firstCameraNamed at h
  exact ⟨List.mem_of_find?_eq_some h, by simpa using List.find?_some h⟩

theorem firstCameraNamed_of_mem (passes : List Pass) (cam : CameraNode)
    (h : cam ∈ passCameras passes) :
    ∃ first, firstCameraNamed cam.name passes = some first := by
  cases hf : firstCameraNamed cam.name passes with
  | some first => exact ⟨first, rfl⟩
  | none =>
    exfalso
    unfold firstCameraNamed at hf
    rw [List.find?_eq_none] at hf
    exact hf cam h (by simp)

theorem mem_frameQueries_keys (env : Env) (visit : List Pass) (p : Pipeline)
    (name : String) :
    name ∈ (frameQueries env visit p).map Prod.fst ↔
      name ∈ (passCameras visit).map (fun cam => cam.name) := by
  rw [mem_keys_iff_lookup, frameQueries, buildQueries_lookup]
  simp only [List.lookup, Option.none_or, ne_eq, Option.map_eq_none', List.mem_map]
  constructor
  · intro h
    cases hf : firstCameraNamed name visit with
    | none => exact absurd hf h
    | some cam =>
      obtain ⟨h1, h2⟩ := firstCameraNamed_some name _ cam hf
      exact ⟨cam, h1, h2⟩
  · rintro ⟨cam, h1, rfl⟩ hcon
    obtain ⟨first, hf⟩ := firstCameraNamed_of_mem _ cam h1
    rw [hf] at hcon
    exact absurd hcon (by simp)

/-- `Execute` computes one query for each camera name among the passes that
have a camera, in whatever order the pass map is met. -/
theorem frameQueries_length (env : Env) (visit : List Pass) (p : Pipeline) :
    (frameQueries env visit p).length =
      ((passCameras visit).map (fun cam => cam.name)).dedup.length := by
  have hn : ((frameQueries env visit p).map Prod.fst).Nodup :=
    buildQueries_nodup env _ [] _ (by simp)
  rw [← List.card_toFinset, ← List.length_map (frameQueries env visit p) Prod.fst,
    ← List.toFinset_card_of_nodup hn]
  congr 1
  ext name
  simp only [List.mem_toFinset]
  exact mem_frameQueries_keys env visit p name

theorem dedup_length_names (cams : List CameraNode)
    (hinj : ∀ a ∈ cams, ∀ b ∈ cams, a.name = b.name → a = b) :
    (cams.map (fun cam => cam.name)).dedup.length = cams.dedup.length := by
  rw [← List.card_toFinset, ← List.card_toFinset]
  have h : (cams.map (fun cam => cam.name)).toFinset =
      cams.toFinset.image (fun cam => cam.name) := by
    ext name
    simp
  rw [h]
  apply Finset.card_image_of_injOn
  intro a ha b hb hab
  exact hinj a (by simpa using ha) b (by simpa using hb) hab

theorem passBody_lookup (env : Env) (qs qs' : List (String × RenderQuery)) (pass : Pass)
    (cam : CameraNode) (s : Pipeline) (hc : pass.cameraNode = some cam)
    (h : qs.lookup cam.name = qs'.lookup cam.name) :
    passBody env qs pass s = passBody env qs' pass s := by
  unfold passBody
  simp only [hc, h]

theorem mem_passCameras (passes : List Pass) (pass : Pass) (cam : CameraNode)
    (hp : pass ∈ passes) (hc : pass.cameraNode = some cam) : cam ∈ passCameras passes := by
  simp only [passCameras, List.mem_filterMap]
  exact ⟨pass, hp, hc⟩

/-- When no two cameras of the passes share a name, `Execute` computes one
query for each camera and stores under the name of a pass's camera the query of
that camera, in whatever order the pass map is met. -/
theorem frameQueries_unique_names (env : Env) (visit : List Pass) (p : Pipeline)
    (hinj : ∀ a ∈ passCameras visit, ∀ b ∈ passCameras visit, a.name = b.name → a = b) :
    (frameQueries env visit p).length = (passCameras visit).dedup.length ∧
    ∀ pass ∈ visit, ∀ cam, pass.cameraNode = some cam →
      (frameQueries env visit p).lookup cam.name = some (cameraQuery env cam) := by
  refine ⟨?_, ?_⟩
  · rw [frameQueries_length, dedup_length_names _ hinj]
  · intro pass hp cam hc
    have hmem := mem_passCameras visit pass cam hp hc
    obtain ⟨first, hf⟩ := firstCameraNamed_of_mem _ cam hmem
    obtain ⟨h1, h2⟩ := firstCameraNamed_some _ _ first hf
    have hfc : first = cam := hinj first h1 cam hmem h2
    rw [frameQueries, buildQueries_lookup, hf, hfc]
    simp [List.lookup]

end Src.PrelightPipeline

/-! ## The claims -/

/-- C1: resolving a light (the dispatch of `Execute` on the light type,
followed by `DrawDirLight`, `DrawPointLight` or `DrawSpotLight`) calls
`GetShaderByName` exactly once, and the name it passes is the entry of the
specification's table for the light's type, its `castShadows` flag and the
cascaded-shadow switch: nothing else of the light, the pass, the engine or the
pipeline enters the name, so equal triples give equal names. -/
theorem light_shader_name_from_triple (env : Env) (pass : Pass) (node : SceneNode)
    (p : Pipeline) (light : Light) (cam : CameraNode)
    (hl : node.light = some light) (hc : p.m_CurrentCamera = some cam) :
    ∃ q, Fury.PrelightPipeline.drawLight env pass light node p = some q ∧
      q.lookups = p.lookups ++
        [lightShaderTable light.type light.castShadows p.CASCADED_SHADOW_MAP] := by
  have hname : Fury.PrelightPipeline.selectedShaderName light p.CASCADED_SHADOW_MAP =
      lightShaderTable light.type light.castShadows p.CASCADED_SHADOW_MAP := by
    unfold Fury.PrelightPipeline.selectedShaderName
    cases light.type <;> cases light.castShadows <;> cases p.CASCADED_SHADOW_MAP <;> rfl
  cases hs : env.GetShaderByName
      (Fury.PrelightPipeline.selectedShaderName light p.CASCADED_SHADOW_MAP) with
  | none =>
    refine ⟨_, Fury.PrelightPipeline.drawLight_missing env pass node p light cam hl hc hs, ?_⟩
    simp [Pipeline.lookup, Pipeline.warn, hname]
  | some shader =>
    obtain ⟨q, hq, _, _, _, hlook, _⟩ :=
      Fury.PrelightPipeline.drawLight_found env pass node p light cam shader hl hc hs
    exact ⟨q, hq, by rw [hlook, hname]⟩

/-- The concrete instance of C1: the shadow-casting sun of the sample scene,
resolved with the cascaded switch on, looks up `dirlight_csm_shader`. -/
theorem light_shader_name_from_triple_witness :
    ∃ q, Fury.PrelightPipeline.drawLight Sample.env Sample.lightPass
        ⟨LightType.DIRECTIONAL, 0, 0, true, Sample.quad⟩ Sample.sun Sample.pipeline = some q ∧
      q.lookups = Sample.pipeline.lookups ++ ["dirlight_csm_shader"] :=
  light_shader_name_from_triple Sample.env Sample.lightPass Sample.sun Sample.pipeline
    ⟨LightType.DIRECTIONAL, 0, 0, true, Sample.quad⟩ Sample.camera rfl rfl

/-- C2: for a shadow-casting directional light whose cascaded shadow map came
back with a texture, `DrawDirLight` (in `engine/Fury` with the cascaded switch
on, in `engine/src` always) issues exactly one `BindFloat` on `shadow_far`, and
its four values are `(F-N)/4`, `(F-N)/2`, `3(F-N)/4` and `F-N` in this order,
for the camera's near `N` and far `F`, in exact rational arithmetic. The four
are strictly ascending when `N < F`. -/
theorem cascade_split_distances (env : Env) (pass : Pass) (node : SceneNode) (p : Pipeline)
    (light : Light) (cam : CameraNode) (shader : Shader) (texture : Texture)
    (hl : node.light = some light) (hc : p.m_CurrentCamera = some cam)
    (hcast : light.castShadows = true)
    (hs : env.GetShaderByName "dirlight_csm_shader" = some shader)
    (ht : (env.DrawCascadedShadowMap pass node).1 = some texture) :
    (p.CASCADED_SHADOW_MAP = true →
      ∃ q, Fury.PrelightPipeline.DrawDirLight env pass node p = some q ∧
        boundFloats "shadow_far" (emitted p q) =
          [[(cam.camera.far - cam.camera.near) / 4, (cam.camera.far - cam.camera.near) / 2,
            3 * (cam.camera.far - cam.camera.near) / 4, cam.camera.far - cam.camera.near]]) ∧
    (∃ q, Src.PrelightPipeline.DrawDirLight env pass node p = some q ∧
        boundFloats "shadow_far" (emitted p q) =
          [[(cam.camera.far - cam.camera.near) / 4, (cam.camera.far - cam.camera.near) / 2,
            3 * (cam.camera.far - cam.camera.near) / 4, cam.camera.far - cam.camera.near]]) ∧
    (cam.camera.near < cam.camera.far →
      (cam.camera.far - cam.camera.near) / 4 < (cam.camera.far - cam.camera.near) / 2 ∧
      (cam.camera.far - cam.camera.near) / 2 < 3 * (cam.camera.far - cam.camera.near) / 4 ∧
      3 * (cam.camera.far - cam.camera.near) / 4 < cam.camera.far - cam.camera.near) := by
  have e2 : (cam.camera.far - cam.camera.near) / 4 * 2 = (cam.camera.far - cam.camera.near) / 2 := by
    ring
  have e3 : (cam.camera.far - cam.camera.near) / 4 * 3 =
      3 * (cam.camera.far - cam.camera.near) / 4 := by ring
  have e4 : (cam.camera.far - cam.camera.near) / 4 * 4 = cam.camera.far - cam.camera.near := by
    ring
  refine ⟨?_, ?_, ?_⟩
  · intro hcsm
    unfold Fury.PrelightPipeline.DrawDirLight
    simp only [hl, hc]
    simp only [Pipeline.lookup, hcast, hcsm, Fury.PrelightPipeline.dirLightShaderName, if_true, hs]
    cases htex2 : (env.DrawDirLightShadowMap pass node).1 <;>
    simp [emitted, Pipeline.bindPassTextures_eq, Pipeline.emits, Pipeline.emit,
      Pipeline.IncreaseDrawCall, Pipeline.IncreaseLightCount, ht, htex2, boundFloats_append,
      boundFloats, e2, e3, e4]
  · unfold Src.PrelightPipeline.DrawDirLight
    simp only [hl, hc]
    simp only [Pipeline.lookup, hcast, Src.PrelightPipeline.dirLightShaderName, if_true, hs]
    simp [emitted, Pipeline.bindPassTextures_eq, Pipeline.emits, Pipeline.emit,
      Pipeline.IncreaseDrawCall, Pipeline.IncreaseLightCount, ht, boundFloats_append,
      boundFloats, e2, e3, e4]
  · intro h
    refine ⟨?_, ?_, ?_⟩ <;> linarith

/-- The concrete instance of C2: near 1 and far 101 give 25, 50, 75, 100. -/
theorem cascade_split_distances_witness :
    ∃ q, Fury.PrelightPipeline.DrawDirLight Sample.env Sample.lightPass Sample.sun
        Sample.pipeline = some q ∧
      boundFloats "shadow_far" (emitted Sample.pipeline q) = [[25, 50, 75, 100]] := by
  have h := (cascade_split_distances Sample.env Sample.lightPass Sample.sun Sample.pipeline
    ⟨LightType.DIRECTIONAL, 0, 0, true, Sample.quad⟩ Sample.camera ⟨"dirlight_csm_shader"⟩
    ⟨"csm_shadow"⟩ rfl rfl rfl rfl rfl).1 rfl
  obtain ⟨q, hq, hv⟩ := h
  refine ⟨q, hq, ?_⟩
  rw [hv]
  simp only [Sample.camera]
  norm_num

/-- C3: in a LIGHT pass of `Execute`, a light whose selected shader is not
registered appends nothing to the command stream and leaves all counters
unchanged, and the pass goes on: for every list of light nodes the pass issues
as many indexed draw calls as there are lights whose shader is found, and it
advances the draw-call and the light counter by that number. -/
theorem light_pass_draws_found_lights (env : Env) (query : RenderQuery) (passCount i : Nat)
    (pass : Pass) (p : Pipeline) (cam : CameraNode)
    (hmode : pass.drawMode = DrawMode.LIGHT) (hc : p.m_CurrentCamera = some cam) :
    (∀ (node : SceneNode) (light : Light) (s : Pipeline), node.light = some light →
      s.m_CurrentCamera = some cam →
      env.GetShaderByName
        (Fury.PrelightPipeline.selectedShaderName light s.CASCADED_SHADOW_MAP) = none →
      ∃ q, Fury.PrelightPipeline.drawLight env pass light node s = some q ∧
        q.gpu = s.gpu ∧ q.stats = s.stats) ∧
    (∀ (node : SceneNode) (light : Light) (s : Pipeline) (shader : Shader),
      node.light = some light → s.m_CurrentCamera = some cam →
      env.GetShaderByName
        (Fury.PrelightPipeline.selectedShaderName light s.CASCADED_SHADOW_MAP) = some shader →
      ∃ q, Fury.PrelightPipeline.drawLight env pass light node s = some q ∧
        q.gpu = s.gpu ++ emitted s q ∧ drawCalls (emitted s q) = 1 ∧
        q.stats = lightDrawn s.stats) ∧
    ∃ q, Fury.PrelightPipeline.passBody env query passCount i pass p = some q ∧
      q.gpu = p.gpu ++ emitted p q ∧
      drawCalls (emitted p q) =
        query.lightNodes.countP (Fury.PrelightPipeline.shaderFound env p.CASCADED_SHADOW_MAP) ∧
      q.stats = Fury.PrelightPipeline.lightsDrawn
        (query.lightNodes.countP (Fury.PrelightPipeline.shaderFound env p.CASCADED_SHADOW_MAP))
        p.stats := by
  refine ⟨?_, ?_, ?_⟩
  · intro node light s hl hcs hs
    exact ⟨_, Fury.PrelightPipeline.drawLight_missing env pass node s light cam hl hcs hs,
      rfl, rfl⟩
  · intro node light s shader hl hcs hs
    obtain ⟨q, hq, hgpu, hdraw, hstats, _⟩ :=
      Fury.PrelightPipeline.drawLight_found env pass node s light cam shader hl hcs hs
    exact ⟨q, hq, hgpu, hdraw, hstats⟩
  · have key : ∀ s0 : Pipeline, s0.m_CurrentCamera = some cam →
        s0.CASCADED_SHADOW_MAP = p.CASCADED_SHADOW_MAP → s0.stats = p.stats →
        ∀ pre : List Event, s0.gpu = p.gpu ++ pre → drawCalls pre = 0 →
        ∃ q1, Fury.PrelightPipeline.drawLights env pass query.lightNodes s0 = some q1 ∧
          ∃ es, q1.gpu = p.gpu ++ es ∧
          drawCalls es = query.lightNodes.countP
            (Fury.PrelightPipeline.shaderFound env p.CASCADED_SHADOW_MAP) ∧
          q1.stats = Fury.PrelightPipeline.lightsDrawn
            (query.lightNodes.countP
              (Fury.PrelightPipeline.shaderFound env p.CASCADED_SHADOW_MAP)) p.stats := by
      intro s0 hc0 hcsm0 hst0 pre hpre hpre0
      obtain ⟨q1, hq1, hgpu1, hdraw1, hstats1, _⟩ :=
        Fury.PrelightPipeline.drawLights_spec env pass cam query.lightNodes s0 hc0
      rw [hcsm0] at hdraw1 hstats1
      refine ⟨q1, hq1, pre ++ emitted s0 q1, ?_, ?_, ?_⟩
      · rw [hgpu1, hpre, List.append_assoc]
      · rw [drawCalls_append, hpre0, hdraw1, Nat.zero_add]
      · rw [hstats1, hst0]
    unfold Fury.PrelightPipeline.passBody
    simp only [hmode, hc]
    by_cases hlast : i = passCount - 1
    · obtain ⟨q1, hq1, es, hgpu1, hdraw1, hstats1⟩ :=
        key ((({ p with m_CurrentShader := pass.firstShader } : Pipeline).emit
          (Event.glEnable GLCap.FRAMEBUFFER_SRGB)).emit (Event.PassBind pass.name (some true)))
          hc rfl rfl [Event.glEnable GLCap.FRAMEBUFFER_SRGB, Event.PassBind pass.name (some true)]
          (by simp [Pipeline.emit]) (by simp [drawCalls, Event.isDraw])
      simp only [hc] at hq1
      simp only [drawCalls] at hdraw1
      simp only [hlast, if_true, hq1]
      refine ⟨_, rfl, ?_⟩
      cases hsh : q1.m_CurrentShader <;>
        simp [hsh, emitted, Pipeline.emit, hgpu1, hstats1, drawCalls_append, hdraw1,
          drawCalls, Event.isDraw]
    · obtain ⟨q1, hq1, es, hgpu1, hdraw1, hstats1⟩ :=
        key (({ p with m_CurrentShader := pass.firstShader } : Pipeline).emit
          (Event.PassBind pass.name (some true)))
          hc rfl rfl [Event.PassBind pass.name (some true)]
          (by simp [Pipeline.emit]) (by simp [drawCalls, Event.isDraw])
      simp only [hc] at hq1
      simp only [drawCalls] at hdraw1
      simp only [hlast, if_false, hq1]
      refine ⟨_, rfl, ?_⟩
      cases hsh : q1.m_CurrentShader <;>
        simp [hsh, emitted, Pipeline.emit, hgpu1, hstats1, drawCalls_append, hdraw1,
          drawCalls, Event.isDraw]

/-- The concrete instance of C3: of the three lights of the sample scene the
torch has no registered shader; the LIGHT pass issues two draw calls. -/
theorem light_pass_draws_found_lights_witness :
    ∃ q, Fury.PrelightPipeline.passBody Sample.env
        ⟨[], [], [Sample.sun, Sample.torch, Sample.lamp]⟩ 2 0 Sample.lightPass
        Sample.pipeline = some q ∧
      drawCalls (emitted Sample.pipeline q) = 2 ∧ q.stats.lightCount = 2 := by
  obtain ⟨q, hq, _, hd, hst⟩ := (light_pass_draws_found_lights Sample.env
    ⟨[], [], [Sample.sun, Sample.torch, Sample.lamp]⟩ 2 0 Sample.lightPass Sample.pipeline
    Sample.camera rfl rfl).2.2
  refine ⟨q, hq, ?_, ?_⟩
  · rw [hd]
    decide
  · rw [hst]
    decide

/-- C4: `DrawQuad` (both files) called while the current shader is null appends
nothing to the command stream, so no draw call and no bind, and leaves every
counter unchanged; called with a current shader it appends the shader bind, the
binds of the unit quad, the camera and the pass textures, exactly one indexed
draw call and the shader unbind, and increments the draw-call counter by one. -/
theorem DrawQuad_null_shader_or_one_draw (env : Env) (pass : Pass) (p : Pipeline) :
    (p.m_CurrentShader = none →
      (Fury.PrelightPipeline.DrawQuad env pass p).gpu = p.gpu ∧
      (Fury.PrelightPipeline.DrawQuad env pass p).stats = p.stats ∧
      (Src.PrelightPipeline.DrawQuad env pass p).gpu = p.gpu ∧
      (Src.PrelightPipeline.DrawQuad env pass p).stats = p.stats) ∧
    (∀ shader, p.m_CurrentShader = some shader →
      (Fury.PrelightPipeline.DrawQuad env pass p).gpu =
        p.gpu ++ ([Event.ShaderBind shader, Event.BindMesh shader env.GetUnitQuad,
            Event.BindCamera shader p.m_CurrentCamera] ++
          pass.textures.map (fun ptr => Event.BindTexture shader ptr.name ptr) ++
          [Event.glDrawElements env.GetUnitQuad.indices, Event.ShaderUnBind shader]) ∧
      drawCalls (emitted p (Fury.PrelightPipeline.DrawQuad env pass p)) = 1 ∧
      (Fury.PrelightPipeline.DrawQuad env pass p).stats.drawCall = p.stats.drawCall + 1 ∧
      Src.PrelightPipeline.DrawQuad env pass p = Fury.PrelightPipeline.DrawQuad env pass p) := by
  refine ⟨?_, ?_⟩
  · intro h
    simp [Fury.PrelightPipeline.DrawQuad, Src.PrelightPipeline.DrawQuad, h, Pipeline.warn]
  · intro shader h
    refine ⟨?_, ?_, ?_, rfl⟩
    · simp [Fury.PrelightPipeline.DrawQuad, h, Pipeline.bindPassTextures_eq, Pipeline.emits,
        Pipeline.emit, Pipeline.IncreaseDrawCall, Pipeline.IncreaseTriangleCount]
    · simp [Fury.PrelightPipeline.DrawQuad, h, Pipeline.bindPassTextures_eq, Pipeline.emits,
        Pipeline.emit, Pipeline.IncreaseDrawCall, Pipeline.IncreaseTriangleCount, emitted,
        drawCalls_append, drawCalls, Event.isDraw]
    · simp [Fury.PrelightPipeline.DrawQuad, h, Pipeline.bindPassTextures_eq, Pipeline.emits,
        Pipeline.emit, Pipeline.IncreaseDrawCall, Pipeline.IncreaseTriangleCount]

/-- The concrete instance of C4: in the sample pipeline the current shader is
null and `DrawQuad` appends nothing; with the shader of the quad pass current
it issues one draw call. -/
theorem DrawQuad_null_shader_or_one_draw_witness :
    Sample.pipeline.m_CurrentShader = none ∧
    (Fury.PrelightPipeline.DrawQuad Sample.env Sample.quadPass Sample.pipeline).gpu =
      Sample.pipeline.gpu ∧
    drawCalls (emitted { Sample.pipeline with m_CurrentShader := Sample.quadPass.firstShader }
      (Fury.PrelightPipeline.DrawQuad Sample.env Sample.quadPass
        { Sample.pipeline with m_CurrentShader := Sample.quadPass.firstShader })) = 1 :=
  ⟨rfl,
    ((DrawQuad_null_shader_or_one_draw Sample.env Sample.quadPass Sample.pipeline).1 rfl).1,
    ((DrawQuad_null_shader_or_one_draw Sample.env Sample.quadPass
      { Sample.pipeline with m_CurrentShader := Sample.quadPass.firstShader }).2
        ⟨"post_shader"⟩ rfl).2.1⟩

/-- C5: with the texture pool as the specification describes it, each of
`DrawPointLight`, `DrawDirLight` and `DrawSpotLight` returns with as many
shadow textures outstanding as it was entered with, on the missing-shader
return as on the full path, and never holds more than one while it runs; so
for every sequence of lights resolved one after another, entered with none
outstanding, no prefix of the command stream leaves more than one texture
outstanding and none is outstanding at the end. -/
theorem shadow_pool_at_most_one_outstanding (env : Env) (pass : Pass) (cam : CameraNode)
    (nodes : List SceneNode) (p : Pipeline) (hc : p.m_CurrentCamera = some cam) :
    (∀ (node : SceneNode) (light : Light) (s : Pipeline), node.light = some light →
      s.m_CurrentCamera = some cam →
      (∃ q, Fury.PrelightPipeline.DrawPointLight env pass node s = some q ∧
        q.gpu = s.gpu ++ emitted s q ∧ poolOutstanding (emitted s q) = 0 ∧
        ∀ k, poolOutstanding ((emitted s q).take k) ≤ 1) ∧
      (∃ q, Fury.PrelightPipeline.DrawDirLight env pass node s = some q ∧
        q.gpu = s.gpu ++ emitted s q ∧ poolOutstanding (emitted s q) = 0 ∧
        ∀ k, poolOutstanding ((emitted s q).take k) ≤ 1) ∧
      (∃ q, Fury.PrelightPipeline.DrawSpotLight env pass node s = some q ∧
        q.gpu = s.gpu ++ emitted s q ∧ poolOutstanding (emitted s q) = 0 ∧
        ∀ k, poolOutstanding ((emitted s q).take k) ≤ 1)) ∧
    ∃ q, Fury.PrelightPipeline.drawLights env pass nodes p = some q ∧
      q.gpu = p.gpu ++ emitted p q ∧ poolOutstanding (emitted p q) = 0 ∧
      ∀ k, poolOutstanding ((emitted p q).take k) ≤ 1 := by
  have hprefix : ∀ es : List Event, poolPeak 0 es ≤ 1 →
      ∀ k, poolOutstanding (es.take k) ≤ 1 := by
    intro es h k
    have h1 := prefix_le_poolPeak 0 es k
    rw [zero_add] at h1
    exact le_trans h1 h
  have hmiss : ∀ (s : Pipeline) (name msg : String),
      ((s.lookup name).warn msg).gpu = s.gpu ++ emitted s ((s.lookup name).warn msg) ∧
      poolOutstanding (emitted s ((s.lookup name).warn msg)) = 0 ∧
      ∀ k, poolOutstanding ((emitted s ((s.lookup name).warn msg)).take k) ≤ 1 := by
    intro s name msg
    have he : emitted s ((s.lookup name).warn msg) = [] := emitted_self s
    rw [he]
    refine ⟨by simp [Pipeline.lookup, Pipeline.warn], rfl, ?_⟩
    intro k
    simp
  refine ⟨?_, ?_⟩
  · intro node light s hl hcs
    refine ⟨?_, ?_, ?_⟩
    · cases hs : env.GetShaderByName
          (Fury.PrelightPipeline.pointLightShaderName light.castShadows) with
      | none =>
        exact ⟨_, Fury.PrelightPipeline.DrawPointLight_missing env pass node s light cam hl hcs hs,
          hmiss s _ _⟩
      | some shader =>
        obtain ⟨q, hq, hgpu, _, _, _, _, _, hpool, hpeak, _⟩ :=
          Fury.PrelightPipeline.DrawPointLight_found env pass node s light cam shader hl hcs hs
        exact ⟨q, hq, hgpu, hpool, hprefix _ hpeak⟩
    · cases hs : env.GetShaderByName
          (Fury.PrelightPipeline.dirLightShaderName light.castShadows s.CASCADED_SHADOW_MAP) with
      | none =>
        exact ⟨_, Fury.PrelightPipeline.DrawDirLight_missing env pass node s light cam hl hcs hs,
          hmiss s _ _⟩
      | some shader =>
        obtain ⟨q, hq, hgpu, _, _, _, _, _, hpool, hpeak, _⟩ :=
          Fury.PrelightPipeline.DrawDirLight_found env pass node s light cam shader hl hcs hs
        exact ⟨q, hq, hgpu, hpool, hprefix _ hpeak⟩
    · cases hs : env.GetShaderByName
          (Fury.PrelightPipeline.spotLightShaderName light.castShadows) with
      | none =>
        exact ⟨_, Fury.PrelightPipeline.DrawSpotLight_missing env pass node s light cam hl hcs hs,
          hmiss s _ _⟩
      | some shader =>
        obtain ⟨q, hq, hgpu, _, _, _, _, _, hpool, hpeak, _⟩ :=
          Fury.PrelightPipeline.DrawSpotLight_found env pass node s light cam shader hl hcs hs
        exact ⟨q, hq, hgpu, hpool, hprefix _ hpeak⟩
  · obtain ⟨q, hq, hgpu, _, _, _, hpool, hpeak, _⟩ :=
      Fury.PrelightPipeline.drawLights_spec env pass cam nodes p hc
    exact ⟨q, hq, hgpu, hpool, hprefix _ hpeak⟩

/-- The concrete instance of C5: the three lights of the sample scene, two of
them shadow casters, resolved in a row. After the first two calls of the
command stream (the cascaded shadow map and the bind of the pass) one texture
is outstanding, at the end none. -/
theorem shadow_pool_at_most_one_outstanding_witness :
    ∃ q, Fury.PrelightPipeline.drawLights Sample.env Sample.lightPass
        [Sample.sun, Sample.torch, Sample.lamp] Sample.pipeline = some q ∧
      poolOutstanding (emitted Sample.pipeline q) = 0 ∧
      poolOutstanding ((emitted Sample.pipeline q).take 2) ≤ 1 := by
  obtain ⟨q, hq, _, h0, hk⟩ := (shadow_pool_at_most_one_outstanding Sample.env Sample.lightPass
    Sample.camera [Sample.sun, Sample.torch, Sample.lamp] Sample.pipeline rfl).2
  exact ⟨q, hq, h0, hk 2⟩

/-- C6: in the change-tracking `DrawUnit`, when a unit whose shader is found
has just been drawn, drawing a second unit with the same material and the same
mesh appends only the world-matrix bind, the sub-mesh bind when the mesh has
sub-meshes, and the draw call: no `Shader::Bind`, no `BindCamera`, no
pass-texture bind, no `BindMaterial` and no `BindMesh`. -/
theorem same_material_and_mesh_rebinds_nothing (env : Env) (pass : Pass)
    (first second : RenderUnit) (p : Pipeline) (shader : Shader)
    (hmat : second.material = first.material) (hmesh : second.mesh = first.mesh)
    (hs : Fury.PrelightPipeline.unitShader env pass first = some shader) :
    (Fury.PrelightPipeline.DrawUnit env pass second
        (Fury.PrelightPipeline.DrawUnit env pass first p)).gpu =
      (Fury.PrelightPipeline.DrawUnit env pass first p).gpu ++
        (Event.BindMatrix shader Matrix4.WORLD_MATRIX second.node.worldMatrix ::
          (if second.mesh.GetSubMeshCount > 0 then
            [Event.BindSubMesh shader second.mesh second.subMesh,
              Event.glDrawElements (second.mesh.GetSubMeshAt second.subMesh)]
          else [Event.glDrawElements second.mesh.indices])) := by
  obtain ⟨c1, c2, c3, _⟩ :=
    Fury.PrelightPipeline.DrawUnit_found_current env pass first p shader hs
  have hs2 : Fury.PrelightPipeline.unitShader env pass second = some shader := by
    unfold Fury.PrelightPipeline.unitShader at hs ⊢
    rw [hmat, hmesh]
    exact hs
  generalize Fury.PrelightPipeline.DrawUnit env pass first p = p1 at c1 c2 c3 ⊢
  rw [← hmat] at c1
  rw [← hmesh] at c2
  unfold Fury.PrelightPipeline.DrawUnit
  simp only [hs2]
  by_cases h4 : second.mesh.GetSubMeshCount > 0 <;>
  cases h5 : second.mesh.IsSkinnedMesh <;>
  simp [c1, c2, c3, h4, Pipeline.emit, Pipeline.IncreaseDrawCall,
    Pipeline.IncreaseTriangleCount, Pipeline.IncreaseMeshCount,
    Pipeline.IncreaseSkinnedMeshCount]

/-- The concrete instance of C6: two crates of the sample scene share mesh and
material; the second appends its world matrix, its sub-mesh and the draw. -/
theorem same_material_and_mesh_rebinds_nothing_witness :
    (Fury.PrelightPipeline.DrawUnit Sample.env Sample.opaquePass Sample.crateB
        (Fury.PrelightPipeline.DrawUnit Sample.env Sample.opaquePass Sample.crateA
          Sample.pipeline)).gpu =
      (Fury.PrelightPipeline.DrawUnit Sample.env Sample.opaquePass Sample.crateA
          Sample.pipeline).gpu ++
        [Event.BindMatrix ⟨"mesh_shader"⟩ Matrix4.WORLD_MATRIX (Matrix4.raw 6),
          Event.BindSubMesh ⟨"mesh_shader"⟩ Sample.crate 1, Event.glDrawElements 24] :=
  same_material_and_mesh_rebinds_nothing Sample.env Sample.opaquePass Sample.crateA
    Sample.crateB Sample.pipeline ⟨"mesh_shader"⟩ rfl rfl rfl

/-- C8: a TRANSPARENT pass of `Execute` draws the units of
`query->transparentUnits` in query order, each unit whose shader is found with
exactly one draw call under its own world matrix, and skips the others without
moving any unit: the units drawn are a sublist of the query's. So when the
query lists the units in non-increasing distance from the reference point, the
draw calls follow in non-increasing distance. -/
theorem transparent_draw_order (env : Env) (query : RenderQuery) (passCount i : Nat)
    (pass : Pass) (p : Pipeline) (cam : CameraNode) (dist : RenderUnit → ℚ)
    (hmode : pass.drawMode = DrawMode.TRANSPARENT) (hc : p.m_CurrentCamera = some cam)
    (hsorted : query.transparentUnits.Pairwise (fun a b => dist b ≤ dist a)) :
    ∃ q drawn, Fury.PrelightPipeline.passBody env query passCount i pass p = some q ∧
      q.gpu = p.gpu ++ emitted p q ∧
      drawn = query.transparentUnits.filter
        (fun u => (Fury.PrelightPipeline.unitShader env pass u).isSome) ∧
      drawn.Sublist query.transparentUnits ∧
      drawnWorld none (emitted p q) = drawn.map (fun u => some u.node.worldMatrix) ∧
      drawCalls (emitted p q) = drawn.length ∧
      drawn.Pairwise (fun a b => dist b ≤ dist a) := by
  have hbody := Fury.PrelightPipeline.passBody_eq env query passCount i pass p cam hc
  simp only [hmode] at hbody
  have hgpu := Fury.PrelightPipeline.unit_pass_gpu env pass query.transparentUnits passCount i p
    _ _ rfl rfl
  obtain ⟨_, _, hdraw, _, hworld⟩ := Fury.PrelightPipeline.drawUnits_stream env pass
    query.transparentUnits
    ((Fury.PrelightPipeline.passEnter passCount i pass p).emit (Event.PassBind pass.name none))
  have hem := emitted_append p _ _ hgpu
  refine ⟨_, _, hbody, ?_, rfl, List.filter_sublist _, ?_, ?_,
    hsorted.sublist (List.filter_sublist _)⟩
  · rw [hem]
    exact hgpu
  · rw [hem, Fury.PrelightPipeline.drawnWorld_enter]
    obtain ⟨cur', h⟩ := hworld none (Event.PassUnBind pass.name ::
      Fury.PrelightPipeline.leaveEvents passCount i
        (Fury.PrelightPipeline.drawUnits env pass query.transparentUnits
          ((Fury.PrelightPipeline.passEnter passCount i pass p).emit
            (Event.PassBind pass.name none))).m_CurrentShader)
    simp only [drawnWorld] at h ⊢
    rw [h, Fury.PrelightPipeline.drawnWorld_leave, List.append_nil]
  · rw [hem, drawCalls_append, Fury.PrelightPipeline.drawCalls_enter,
      Fury.PrelightPipeline.drawCalls_cons, drawCalls_append, hdraw,
      Fury.PrelightPipeline.drawCalls_cons, Fury.PrelightPipeline.drawCalls_leave]
    simp [Event.isDraw]

/-- The concrete instance of C8: three transparent units, farthest first, the
middle one without a shader; the two windows are drawn, far before near. -/
theorem transparent_draw_order_witness :
    ∃ q, Fury.PrelightPipeline.passBody Sample.env
        ⟨[], [Sample.windowFar, Sample.mist, Sample.windowNear], []⟩ 3 1
        Sample.transparentPass Sample.pipeline = some q ∧
      drawnWorld none (emitted Sample.pipeline q) =
        [some (Matrix4.raw 30), some (Matrix4.raw 10)] := by
  obtain ⟨q, drawn, hq, _, hdrawn, _, hw, _⟩ := transparent_draw_order Sample.env
    ⟨[], [Sample.windowFar, Sample.mist, Sample.windowNear], []⟩ 3 1
    Sample.transparentPass Sample.pipeline Sample.camera (fun u => u.node.worldPosition.z)
    rfl rfl (by
      simp [Sample.windowFar, Sample.mist, Sample.windowNear]
      norm_num)
  refine ⟨q, hq, ?_⟩
  rw [hw, hdrawn]
  decide

/-- C10 fails for a pass that has a texture of its own called `shadow_buffer`:
the lamp casts shadows and the point-light generator of the sample engine
returns no texture; `DrawPointLight` draws the lamp once, and the loop over
the textures of the pass (lines 301-305) binds that texture on `shadow_buffer`. -/
theorem pass_texture_named_shadow_buffer_is_bound :
    Sample.lamp.light.map (fun light => light.castShadows) = some true ∧
    (Sample.env.DrawPointLightShadowMap Sample.shadowNamedPass Sample.lamp).1 = none ∧
    ∃ q, Fury.PrelightPipeline.DrawPointLight Sample.env Sample.shadowNamedPass Sample.lamp
        Sample.pipeline = some q ∧
      drawCalls (emitted Sample.pipeline q) = 1 ∧
      (emitted Sample.pipeline q).filter Event.isShadowBinding =
        [Event.BindTexture ⟨"pointlight_shadow_shader"⟩ "shadow_buffer" ⟨"shadow_buffer"⟩] := by
  refine ⟨rfl, rfl, ?_⟩
  unfold Fury.PrelightPipeline.DrawPointLight
  simp only [Sample.lamp, Sample.pipeline, Sample.env, Sample.camera, Sample.shadowNamedPass,
    Fury.PrelightPipeline.pointLightShaderName, Pipeline.lookup]
  cases hin : (SphereBounds.mk (⟨0, 0, 0⟩ : Vector4) ((4 : ℚ) + 1)).IsInsideFast ⟨3, 4, 0⟩ <;>
  simp [emitted, drawCalls, Pipeline.bindPassTextures_eq, Pipeline.emits, Pipeline.emit,
      Pipeline.IncreaseDrawCall, Pipeline.IncreaseLightCount, hin,
      List.filter_cons, Event.isShadowBinding, Matrix4.WORLD_MATRIX] <;>
  rfl

/-- C10, amended: a shadow-casting light whose shadow-map generator returns no
texture is still drawn with exactly one draw call, by `DrawPointLight`, by
`DrawSpotLight` and by `DrawDirLight` with the cascaded switch off or on, and
no `shadow_matrix` and no `shadow_far` binding is issued for it; a texture is
bound on `shadow_buffer` only when it is one of the textures the pass binds
under their own names for every draw, so none is when the pass has no texture
of that name. -/
theorem missing_shadow_texture_still_draws (env : Env) (pass : Pass) (node : SceneNode)
    (p : Pipeline) (light : Light) (cam : CameraNode) (shader : Shader)
    (hl : node.light = some light) (hc : p.m_CurrentCamera = some cam)
    (hcast : light.castShadows = true) :
    (env.GetShaderByName "pointlight_shadow_shader" = some shader →
      (env.DrawPointLightShadowMap pass node).1 = none →
      ∃ q, Fury.PrelightPipeline.DrawPointLight env pass node p = some q ∧
        q.gpu = p.gpu ++ emitted p q ∧ drawCalls (emitted p q) = 1 ∧
        (∀ e ∈ emitted p q, e.isShadowBinding = true →
          ∃ t ∈ pass.textures, t.name = "shadow_buffer" ∧
            e = Event.BindTexture shader t.name t) ∧
        ((∀ t ∈ pass.textures, t.name ≠ "shadow_buffer") →
          ∀ e ∈ emitted p q, e.isShadowBinding = false)) ∧
    (env.GetShaderByName "spotlight_shadow_shader" = some shader →
      (env.DrawSpotLightShadowMap pass node).1 = none →
      ∃ q, Fury.PrelightPipeline.DrawSpotLight env pass node p = some q ∧
        q.gpu = p.gpu ++ emitted p q ∧ drawCalls (emitted p q) = 1 ∧
        (∀ e ∈ emitted p q, e.isShadowBinding = true →
          ∃ t ∈ pass.textures, t.name = "shadow_buffer" ∧
            e = Event.BindTexture shader t.name t) ∧
        ((∀ t ∈ pass.textures, t.name ≠ "shadow_buffer") →
          ∀ e ∈ emitted p q, e.isShadowBinding = false)) ∧
    (p.CASCADED_SHADOW_MAP = false →
      env.GetShaderByName "dirlight_shadow_shader" = some shader →
      (env.DrawDirLightShadowMap pass node).1 = none →
      ∃ q, Fury.PrelightPipeline.DrawDirLight env pass node p = some q ∧
        q.gpu = p.gpu ++ emitted p q ∧ drawCalls (emitted p q) = 1 ∧
        (∀ e ∈ emitted p q, e.isShadowBinding = true →
          ∃ t ∈ pass.textures, t.name = "shadow_buffer" ∧
            e = Event.BindTexture shader t.name t) ∧
        ((∀ t ∈ pass.textures, t.name ≠ "shadow_buffer") →
          ∀ e ∈ emitted p q, e.isShadowBinding = false)) ∧
    (p.CASCADED_SHADOW_MAP = true →
      env.GetShaderByName "dirlight_csm_shader" = some shader →
      (env.DrawCascadedShadowMap pass node).1 = none →
      ∃ q, Fury.PrelightPipeline.DrawDirLight env pass node p = some q ∧
        q.gpu = p.gpu ++ emitted p q ∧ drawCalls (emitted p q) = 1 ∧
        (∀ e ∈ emitted p q, e.isShadowBinding = true →
          ∃ t ∈ pass.textures, t.name = "shadow_buffer" ∧
            e = Event.BindTexture shader t.name t) ∧
        ((∀ t ∈ pass.textures, t.name ≠ "shadow_buffer") →
          ∀ e ∈ emitted p q, e.isShadowBinding = false)) := by
  have hworld : ("world_matrix" : String) ≠ "shadow_matrix" := by decide
  have htex := shadowBindings_passTextures shader pass.textures
  refine ⟨?_, ?_, ?_, ?_⟩
  · intro hs ht
    have hs1 : env.GetShaderByName
        (Fury.PrelightPipeline.pointLightShaderName light.castShadows) = some shader := by
      rw [hcast]
      exact hs
    obtain ⟨q, hq, hgpu, hdraw, _⟩ :=
      Fury.PrelightPipeline.DrawPointLight_found env pass node p light cam shader hl hc hs1
    refine ⟨q, hq, hgpu, hdraw, shadowBindings_only_pass shader pass _ ?_⟩
    unfold Fury.PrelightPipeline.DrawPointLight at hq
    simp only [hl, hc] at hq
    simp only [Pipeline.lookup, hs1, Option.some.injEq] at hq
    rw [← hq]
    cases hin : (SphereBounds.mk node.worldPosition (light.radius +
      env.Length (cam.camera.frustum.corner0.sub cam.worldPosition))).IsInsideFast
        cam.worldPosition <;>
    simp [emitted, Pipeline.bindPassTextures_eq, Pipeline.emits, Pipeline.emit,
      Pipeline.IncreaseDrawCall, Pipeline.IncreaseLightCount, ht, hin, hcast,
      List.filter_cons, Event.isShadowBinding, Matrix4.WORLD_MATRIX, htex]
  · intro hs ht
    have hs1 : env.GetShaderByName
        (Fury.PrelightPipeline.spotLightShaderName light.castShadows) = some shader := by
      rw [hcast]
      exact hs
    obtain ⟨q, hq, hgpu, hdraw, _⟩ :=
      Fury.PrelightPipeline.DrawSpotLight_found env pass node p light cam shader hl hc hs1
    refine ⟨q, hq, hgpu, hdraw, shadowBindings_only_pass shader pass _ ?_⟩
    unfold Fury.PrelightPipeline.DrawSpotLight at hq
    simp only [hl, hc] at hq
    simp only [Pipeline.lookup, hs1, Option.some.injEq] at hq
    rw [← hq]
    cases hin : env.PointInCone
      (node.worldPosition.sub ((env.coneDirection node.worldMatrix).scale
        (env.Length (cam.camera.frustum.corner0.sub cam.worldPosition) /
          env.sin (light.outterAngle * (1 / 2)))))
      (env.coneDirection node.worldMatrix)
      (light.radius + (env.Length (cam.camera.frustum.corner0.sub cam.worldPosition) +
        env.Length (cam.camera.frustum.corner0.sub cam.worldPosition) /
          env.sin (light.outterAngle * (1 / 2))))
      (light.outterAngle * (1 / 2)) cam.worldPosition <;>
    simp [emitted, Pipeline.bindPassTextures_eq, Pipeline.emits, Pipeline.emit,
      Pipeline.IncreaseDrawCall, Pipeline.IncreaseLightCount, ht, hin, hcast,
      List.filter_cons, Event.isShadowBinding, Matrix4.WORLD_MATRIX, htex]
  · intro hcsm hs ht
    have hs1 : env.GetShaderByName (Fury.PrelightPipeline.dirLightShaderName
        light.castShadows p.CASCADED_SHADOW_MAP) = some shader := by
      rw [hcast, hcsm]
      exact hs
    obtain ⟨q, hq, hgpu, hdraw, _⟩ :=
      Fury.PrelightPipeline.DrawDirLight_found env pass node p light cam shader hl hc hs1
    refine ⟨q, hq, hgpu, hdraw, shadowBindings_only_pass shader pass _ ?_⟩
    unfold Fury.PrelightPipeline.DrawDirLight at hq
    simp only [hl, hc] at hq
    simp only [Pipeline.lookup, hs1, Option.some.injEq] at hq
    rw [← hq]
    simp [emitted, Pipeline.bindPassTextures_eq, Pipeline.emits, Pipeline.emit,
      Pipeline.IncreaseDrawCall, Pipeline.IncreaseLightCount, ht, hcsm, hcast,
      List.filter_cons, Event.isShadowBinding, Matrix4.WORLD_MATRIX, htex]
  · intro hcsm hs ht
    have hs1 : env.GetShaderByName (Fury.PrelightPipeline.dirLightShaderName
        light.castShadows p.CASCADED_SHADOW_MAP) = some shader := by
      rw [hcast, hcsm]
      exact hs
    obtain ⟨q, hq, hgpu, hdraw, _⟩ :=
      Fury.PrelightPipeline.DrawDirLight_found env pass node p light cam shader hl hc hs1
    refine ⟨q, hq, hgpu, hdraw, shadowBindings_only_pass shader pass _ ?_⟩
    unfold Fury.PrelightPipeline.DrawDirLight at hq
    simp only [hl, hc] at hq
    simp only [Pipeline.lookup, hs1, Option.some.injEq] at hq
    rw [← hq]
    simp [emitted, Pipeline.bindPassTextures_eq, Pipeline.emits, Pipeline.emit,
      Pipeline.IncreaseDrawCall, Pipeline.IncreaseLightCount, ht, hcsm, hcast,
      List.filter_cons, Event.isShadowBinding, Matrix4.WORLD_MATRIX, htex]

/-- The concrete instance of C10: the point-light generator of the sample
engine returns no texture; the lamp is drawn once without shadow data. -/
theorem missing_shadow_texture_still_draws_witness :
    ∃ q, Fury.PrelightPipeline.DrawPointLight Sample.env Sample.lightPass Sample.lamp
        Sample.pipeline = some q ∧
      drawCalls (emitted Sample.pipeline q) = 1 ∧
      ∀ e ∈ emitted Sample.pipeline q, e.isShadowBinding = false := by
  obtain ⟨q, hq, _, hd, hb⟩ := (missing_shadow_texture_still_draws Sample.env Sample.lightPass
    Sample.lamp Sample.pipeline ⟨LightType.POINT, 4, 0, true, Sample.sphere⟩ Sample.camera
    ⟨"pointlight_shadow_shader"⟩ rfl rfl rfl).1 rfl rfl
  exact ⟨q, hq, hd, hb.2 (by decide)⟩

/-- C11: `Execute`, entered with a camera, returns with the current shader,
material and mesh null and with the camera it was entered with, whatever the
three held on entry and whatever the passes drew; and every pass of the sorted
list, run from the state the loop reaches before it, completes with the
current shader, material and mesh null and the camera unchanged. -/
theorem transient_state_reset (env : Env) (p : Pipeline) (cam : CameraNode)
    (hc : p.m_CurrentCamera = some cam) :
    ∃ q, Fury.PrelightPipeline.Execute env p = some q ∧
      q.m_CurrentShader = none ∧ q.m_CurrentMateral = none ∧ q.m_CurrentMesh = none ∧
      q.m_CurrentCamera = p.m_CurrentCamera ∧
      ∀ (k : Nat) (pass : Pass),
        (Fury.PrelightPipeline.frameStart p).m_SortedPasses[k]? = some pass →
        ∃ s t, Fury.PrelightPipeline.beforePass env cam p k = some s ∧
          Fury.PrelightPipeline.passBody env (Fury.PrelightPipeline.frameQuery env cam)
            (Fury.PrelightPipeline.frameStart p).m_SortedPasses.length k pass s = some t ∧
          t.m_CurrentShader = none ∧ t.m_CurrentMateral = none ∧ t.m_CurrentMesh = none ∧
          t.m_CurrentCamera = p.m_CurrentCamera := by
  obtain ⟨p1, hp1⟩ : ∃ p1, p1 = Fury.PrelightPipeline.frameStart p := ⟨_, rfl⟩
  have hc1 : p1.m_CurrentCamera = some cam := by
    rw [hp1]
    exact hc
  have hcam1 : p1.m_CurrentCamera = p.m_CurrentCamera := by
    rw [hp1]
    rfl
  rw [← hp1]
  obtain ⟨q0, hq0, _, hcfg0, _, _⟩ := Fury.PrelightPipeline.passLoop_run env
    (Fury.PrelightPipeline.frameQuery env cam) p1.m_SortedPasses.length cam p1.m_SortedPasses
    0 p1 hc1
  have hexec : Fury.PrelightPipeline.Execute env p =
      some ({ (if q0.debugSwitch then q0.emit Event.DrawDebug else q0) with
        m_CurrentShader := none, m_CurrentMateral := none, m_CurrentMesh := none }) := by
    have h := hq0
    rw [hp1] at h
    unfold Fury.PrelightPipeline.frameStart Fury.PrelightPipeline.frameQuery at h
    unfold Fury.PrelightPipeline.Execute
    simp only [hc] at h ⊢
    simp only [h]
  refine ⟨_, hexec, rfl, rfl, rfl, ?_, ?_⟩
  · have h : ({ (if q0.debugSwitch then q0.emit Event.DrawDebug else q0) with
        m_CurrentShader := none, m_CurrentMateral := none, m_CurrentMesh := none }
        : Pipeline).m_CurrentCamera = q0.m_CurrentCamera := by
      cases q0.debugSwitch <;> rfl
    rw [h, hcfg0.1, hcam1]
  · intro k pass hk
    obtain ⟨s, hs, _, hscfg, _, _⟩ := Fury.PrelightPipeline.passLoop_run env
      (Fury.PrelightPipeline.frameQuery env cam) p1.m_SortedPasses.length cam
      (p1.m_SortedPasses.take k) 0 p1 hc1
    obtain ⟨t, ht, _, htcfg, _⟩ := Fury.PrelightPipeline.passBody_srgb env
      (Fury.PrelightPipeline.frameQuery env cam) p1.m_SortedPasses.length k pass s cam
      (hscfg.1.trans hc1)
    obtain ⟨r1, r2, r3⟩ := Fury.PrelightPipeline.passBody_reset env
      (Fury.PrelightPipeline.frameQuery env cam) p1.m_SortedPasses.length k pass s cam
      (hscfg.1.trans hc1) t ht
    refine ⟨s, t, ?_, ht, r1, r2, r3, ?_⟩
    · unfold Fury.PrelightPipeline.beforePass
      rw [← hp1]
      exact hs
    · rw [htcfg.1, hscfg.1, hcam1]

/-- The concrete instance of C11: the sample pipeline entered with a stale
shader, material and mesh returns with all three null and its camera. -/
theorem transient_state_reset_witness :
    ∃ q, Fury.PrelightPipeline.Execute Sample.env Sample.stalePipeline = some q ∧
      q.m_CurrentShader = none ∧ q.m_CurrentMateral = none ∧ q.m_CurrentMesh = none ∧
      q.m_CurrentCamera = some Sample.camera := by
  obtain ⟨q, hq, h1, h2, h3, h4, _⟩ := transient_state_reset Sample.env
    Sample.stalePipeline Sample.camera rfl
  exact ⟨q, hq, h1, h2, h3, h4⟩

/-- C12 fails for two cameras that share a name: the passes `near` and `twin`
have different camera nodes, both called `camera`, whose frustums hold the
first and the second crate. In whichever order the pass map is met, `Execute`
computes one query for the two cameras and both passes draw the same crate:
the first crate when `near` is met first, so that `twin` draws from the query
of the other camera, and the second crate when `twin` is met first, so that
`near` does. With cameras of different names (`near` and `far`) it computes two
queries and each pass draws the crate of its own camera, in either order. -/
theorem cameras_sharing_a_name_share_a_query :
    (Sample.camera ≠ Sample.twinCamera ∧ Sample.camera.name = Sample.twinCamera.name ∧
      Sample.nearPass.cameraNode = some Sample.camera ∧
      Sample.twinPass.cameraNode = some Sample.twinCamera ∧
      (Src.PrelightPipeline.cameraQuery Sample.twinEnv Sample.camera).opaqueUnits =
        [Sample.crateA] ∧
      (Src.PrelightPipeline.cameraQuery Sample.twinEnv Sample.twinCamera).opaqueUnits =
        [Sample.crateB]) ∧
    ((Src.PrelightPipeline.passCameras [Sample.nearPass, Sample.twinPass]).dedup.length = 2 ∧
      (Src.PrelightPipeline.frameQueries Sample.twinEnv [Sample.nearPass, Sample.twinPass]
        Sample.twinPipeline).length = 1 ∧
      (Src.PrelightPipeline.Execute Sample.twinEnv [Sample.nearPass, Sample.twinPass]
          Sample.twinPipeline).map (fun q => drawnWorld none q.gpu) =
        some [some Sample.crateA.node.worldMatrix, some Sample.crateA.node.worldMatrix]) ∧
    ((Src.PrelightPipeline.passCameras [Sample.twinPass, Sample.nearPass]).dedup.length = 2 ∧
      (Src.PrelightPipeline.frameQueries Sample.twinEnv [Sample.twinPass, Sample.nearPass]
        Sample.twinPipeline).length = 1 ∧
      (Src.PrelightPipeline.Execute Sample.twinEnv [Sample.twinPass, Sample.nearPass]
          Sample.twinPipeline).map (fun q => drawnWorld none q.gpu) =
        some [some Sample.crateB.node.worldMatrix, some Sample.crateB.node.worldMatrix]) ∧
    ((Src.PrelightPipeline.frameQueries Sample.twinEnv [Sample.nearPass, Sample.farPass]
        Sample.farPipeline).length = 2 ∧
      (Src.PrelightPipeline.Execute Sample.twinEnv [Sample.nearPass, Sample.farPass]
          Sample.farPipeline).map (fun q => drawnWorld none q.gpu) =
        some [some Sample.crateA.node.worldMatrix, some Sample.crateB.node.worldMatrix] ∧
      (Src.PrelightPipeline.frameQueries Sample.twinEnv [Sample.farPass, Sample.nearPass]
        Sample.farPipeline).length = 2 ∧
      (Src.PrelightPipeline.Execute Sample.twinEnv [Sample.farPass, Sample.nearPass]
          Sample.farPipeline).map (fun q => drawnWorld none q.gpu) =
        some [some Sample.crateA.node.worldMatrix, some Sample.crateB.node.worldMatrix]) := by
  have hne : Sample.camera ≠ Sample.twinCamera := by
    simp [Sample.camera, Sample.twinCamera]
  have hcams : Src.PrelightPipeline.passCameras [Sample.nearPass, Sample.twinPass] =
      [Sample.camera, Sample.twinCamera] := rfl
  have hcams2 : Src.PrelightPipeline.passCameras [Sample.twinPass, Sample.nearPass] =
      [Sample.twinCamera, Sample.camera] := rfl
  refine ⟨⟨hne, rfl, rfl, rfl, rfl, rfl⟩, ⟨?_, rfl, rfl⟩, ⟨?_, rfl, rfl⟩, ⟨rfl, rfl, rfl, rfl⟩⟩
  · rw [hcams, List.dedup_cons_of_not_mem (by simpa using hne)]
    simp
  · rw [hcams2, List.dedup_cons_of_not_mem (by simpa using hne.symm)]
    simp

/-- C14: a call of `DrawUnit`, `DrawQuad`, `DrawPointLight`, `DrawDirLight` or
`DrawSpotLight` whose shader is missing issues no indexed draw call and leaves
every counter of `RenderUtil` unchanged; otherwise it issues exactly one
indexed draw call and advances the draw-call counter by one. Then `DrawUnit`
also advances the skinned-mesh counter for a skinned mesh and the mesh counter
for any other, and adds the drawn index count (the sub-mesh's when the mesh
has sub-meshes, else the mesh's) to the triangle counter; `DrawQuad` adds the
index count of the unit quad to the triangle counter; each light procedure
advances the light counter by one; and no other counter moves. -/
theorem one_draw_call_and_its_counters (env : Env) (pass : Pass) (p : Pipeline) :
    (∀ unit : RenderUnit,
      (Fury.PrelightPipeline.unitShader env pass unit = none →
        drawCalls (emitted p (Fury.PrelightPipeline.DrawUnit env pass unit p)) = 0 ∧
        (Fury.PrelightPipeline.DrawUnit env pass unit p).stats = p.stats) ∧
      (∀ shader, Fury.PrelightPipeline.unitShader env pass unit = some shader →
        drawCalls (emitted p (Fury.PrelightPipeline.DrawUnit env pass unit p)) = 1 ∧
        (Fury.PrelightPipeline.DrawUnit env pass unit p).stats =
          { drawCall := p.stats.drawCall + 1
            triangleCount := p.stats.triangleCount +
              (if unit.mesh.GetSubMeshCount > 0 then unit.mesh.GetSubMeshAt unit.subMesh
               else unit.mesh.indices)
            meshCount := p.stats.meshCount + (if unit.mesh.IsSkinnedMesh then 0 else 1)
            skinnedMeshCount :=
              p.stats.skinnedMeshCount + (if unit.mesh.IsSkinnedMesh then 1 else 0)
            lightCount := p.stats.lightCount })) ∧
    (p.m_CurrentShader = none →
      drawCalls (emitted p (Fury.PrelightPipeline.DrawQuad env pass p)) = 0 ∧
      (Fury.PrelightPipeline.DrawQuad env pass p).stats = p.stats) ∧
    (∀ shader, p.m_CurrentShader = some shader →
      drawCalls (emitted p (Fury.PrelightPipeline.DrawQuad env pass p)) = 1 ∧
      (Fury.PrelightPipeline.DrawQuad env pass p).stats =
        { p.stats with
          drawCall := p.stats.drawCall + 1
          triangleCount := p.stats.triangleCount + env.GetUnitQuad.indices }) ∧
    (∀ (node : SceneNode) (light : Light) (cam : CameraNode), node.light = some light →
      p.m_CurrentCamera = some cam →
      (∃ q, Fury.PrelightPipeline.DrawPointLight env pass node p = some q ∧
        ((drawCalls (emitted p q) = 0 ∧ q.stats = p.stats) ∨
          (drawCalls (emitted p q) = 1 ∧ q.stats = lightDrawn p.stats))) ∧
      (∃ q, Fury.PrelightPipeline.DrawDirLight env pass node p = some q ∧
        ((drawCalls (emitted p q) = 0 ∧ q.stats = p.stats) ∨
          (drawCalls (emitted p q) = 1 ∧ q.stats = lightDrawn p.stats))) ∧
      (∃ q, Fury.PrelightPipeline.DrawSpotLight env pass node p = some q ∧
        ((drawCalls (emitted p q) = 0 ∧ q.stats = p.stats) ∨
          (drawCalls (emitted p q) = 1 ∧ q.stats = lightDrawn p.stats)))) := by
  have hmiss : ∀ (name msg : String),
      drawCalls (emitted p ((p.lookup name).warn msg)) = 0 ∧
      ((p.lookup name).warn msg).stats = p.stats := by
    intro name msg
    have he : emitted p ((p.lookup name).warn msg) = [] := emitted_self p
    rw [he]
    exact ⟨rfl, rfl⟩
  refine ⟨?_, ?_, ?_, ?_⟩
  · intro unit
    refine ⟨?_, ?_⟩
    · intro hs
      rw [Fury.PrelightPipeline.DrawUnit_missing env pass unit p hs]
      have he : emitted p (p.warn ("Failed to draw " ++ unit.node.name ++
          ", shader not found!")) = [] := emitted_self p
      rw [he]
      exact ⟨rfl, rfl⟩
    · intro shader hs
      refine ⟨(Fury.PrelightPipeline.DrawUnit_found_stream env pass unit p shader hs).2.2.1, ?_⟩
      unfold Fury.PrelightPipeline.DrawUnit
      simp only [hs]
      by_cases h1 : some unit.material = p.m_CurrentMateral <;>
      by_cases h2 : some unit.mesh = p.m_CurrentMesh <;>
      by_cases h3 : some shader = p.m_CurrentShader <;>
      by_cases h4 : unit.mesh.GetSubMeshCount > 0 <;>
      cases h5 : unit.mesh.IsSkinnedMesh <;>
      simp [h1, h2, h3, h4, Pipeline.bindPassTextures_eq, Pipeline.emits, Pipeline.emit,
        Pipeline.IncreaseDrawCall, Pipeline.IncreaseTriangleCount, Pipeline.IncreaseMeshCount,
        Pipeline.IncreaseSkinnedMeshCount]
  · intro h
    unfold Fury.PrelightPipeline.DrawQuad
    simp only [h]
    have he : emitted p (p.warn "Failed to draw full screen quad, shader not found!") = [] :=
      emitted_self p
    rw [he]
    exact ⟨rfl, rfl⟩
  · intro shader h
    unfold Fury.PrelightPipeline.DrawQuad
    simp [h, Pipeline.bindPassTextures_eq, Pipeline.emits, Pipeline.emit,
      Pipeline.IncreaseDrawCall, Pipeline.IncreaseTriangleCount, emitted, drawCalls_append,
      drawCalls, Event.isDraw]
  · intro node light cam hl hc
    refine ⟨?_, ?_, ?_⟩
    · cases hs : env.GetShaderByName
          (Fury.PrelightPipeline.pointLightShaderName light.castShadows) with
      | none =>
        exact ⟨_, Fury.PrelightPipeline.DrawPointLight_missing env pass node p light cam hl hc hs,
          Or.inl (hmiss _ _)⟩
      | some shader =>
        obtain ⟨q, hq, _, hdraw, hstats, _⟩ :=
          Fury.PrelightPipeline.DrawPointLight_found env pass node p light cam shader hl hc hs
        exact ⟨q, hq, Or.inr ⟨hdraw, hstats⟩⟩
    · cases hs : env.GetShaderByName
          (Fury.PrelightPipeline.dirLightShaderName light.castShadows p.CASCADED_SHADOW_MAP) with
      | none =>
        exact ⟨_, Fury.PrelightPipeline.DrawDirLight_missing env pass node p light cam hl hc hs,
          Or.inl (hmiss _ _)⟩
      | some shader =>
        obtain ⟨q, hq, _, hdraw, hstats, _⟩ :=
          Fury.PrelightPipeline.DrawDirLight_found env pass node p light cam shader hl hc hs
        exact ⟨q, hq, Or.inr ⟨hdraw, hstats⟩⟩
    · cases hs : env.GetShaderByName
          (Fury.PrelightPipeline.spotLightShaderName light.castShadows) with
      | none =>
        exact ⟨_, Fury.PrelightPipeline.DrawSpotLight_missing env pass node p light cam hl hc hs,
          Or.inl (hmiss _ _)⟩
      | some shader =>
        obtain ⟨q, hq, _, hdraw, hstats, _⟩ :=
          Fury.PrelightPipeline.DrawSpotLight_found env pass node p light cam shader hl hc hs
        exact ⟨q, hq, Or.inr ⟨hdraw, hstats⟩⟩

/-- The concrete instance of C14: the second crate of the sample scene is
drawn from its sub-mesh of 24 indices; the torch, whose shader is missing,
leaves the counters alone. -/
theorem one_draw_call_and_its_counters_witness :
    (Fury.PrelightPipeline.DrawUnit Sample.env Sample.opaquePass Sample.crateB
        Sample.pipeline).stats = ⟨1, 24, 1, 0, 0⟩ ∧
    ∃ q, Fury.PrelightPipeline.DrawSpotLight Sample.env Sample.lightPass Sample.torch
        Sample.pipeline = some q ∧
      ((drawCalls (emitted Sample.pipeline q) = 0 ∧ q.stats = Sample.pipeline.stats) ∨
        (drawCalls (emitted Sample.pipeline q) = 1 ∧
          q.stats = lightDrawn Sample.pipeline.stats)) :=
  ⟨(((one_draw_call_and_its_counters Sample.env Sample.opaquePass Sample.pipeline).1
      Sample.crateB).2 ⟨"mesh_shader"⟩ rfl).2,
    ((one_draw_call_and_its_counters Sample.env Sample.lightPass Sample.pipeline).2.2.2
      Sample.torch ⟨LightType.SPOT, 4, 1, false, Sample.sphere⟩ Sample.camera rfl rfl).2.2⟩

/-- C15 fails on a LIGHT pass in which no light is drawn: with no light node
in the query, and with a single light node whose shader is missing, the pass
body of `Execute` returns and the last `Bind` or `UnBind` on the pass is the
`Bind(true)` of line 130; with one light drawn it is the `UnBind` of the light
procedure, as it is the `UnBind` of `Execute` for a QUAD pass. -/
theorem light_pass_without_drawn_light_stays_bound :
    (∃ q, Fury.PrelightPipeline.passBody Sample.env ⟨[], [], []⟩ 2 0 Sample.lightPass
        Sample.pipeline = some q ∧
      lastPassEvent "light" (emitted Sample.pipeline q) =
        some (Event.PassBind "light" (some true))) ∧
    (∃ q, Fury.PrelightPipeline.passBody Sample.env ⟨[], [], [Sample.torch]⟩ 2 0
        Sample.lightPass Sample.pipeline = some q ∧
      lastPassEvent "light" (emitted Sample.pipeline q) =
        some (Event.PassBind "light" (some true))) ∧
    (∃ q, Fury.PrelightPipeline.passBody Sample.env ⟨[], [], [Sample.sun]⟩ 2 0
        Sample.lightPass Sample.pipeline = some q ∧
      lastPassEvent "light" (emitted Sample.pipeline q) = some (Event.PassUnBind "light")) ∧
    (∃ q, Fury.PrelightPipeline.passBody Sample.env ⟨[], [], []⟩ 2 1 Sample.quadPass
        Sample.pipeline = some q ∧
      lastPassEvent "post" (emitted Sample.pipeline q) = some (Event.PassUnBind "post")) :=
  ⟨⟨_, rfl, rfl⟩, ⟨_, rfl, rfl⟩, ⟨_, rfl, rfl⟩, ⟨_, rfl, rfl⟩⟩

end Engine
